import Mathlib

/-!
Verification of the WNS uploader core (bin/user/wns.py): the record
serializer and URL builder, per-field error isolation, the GTS
(Grünlandtemperatursumme) accumulator, the record enrichment pass and the
bounded delivery queue.

External weewx services (unit metadata and conversion, Python string
formatting, calendar helpers, the parent RESTThread) are modelled as
abstract environment parameters, so theorems quantify over every possible
behaviour of those services.  Historical storage follows the interface of
the design document: a range query returns a value or null.
-/

namespace WnsVerify

/-- Values a Python archive record can hold in this model: a number,
a string, or Python's `None`. -/
inductive PyVal where
  | num (q : ℚ)
  | str (s : String)
  | none
deriving DecidableEq

/-- Association-list lookup keyed by strings (Python dict read access:
later assignments are placed in front and found first). -/
def alookup {α : Type} : List (String × α) → String → Option α
  | [], _ => Option.none
  | (k, v) :: rest, key => if k = key then some v else alookup rest key

/-- An observation record: a mapping from field names to values. -/
abbrev Record := List (String × PyVal)

/-- Python dict assignment `record[k] = v`. -/
def rinsert (r : Record) (k : String) (v : PyVal) : Record := (k, v) :: r

/-- Reading an assigned key returns the assigned value. -/
theorem alookup_rinsert_same (r : Record) (k : String) (v : PyVal) :
    alookup (rinsert r k v) k = some v := by
  simp [rinsert, alookup]

/-- Reading any other key is unaffected by an assignment. -/
theorem alookup_rinsert_other (r : Record) (k k' : String) (v : PyVal)
    (h : k ≠ k') : alookup (rinsert r k v) k' = alookup r k' := by
  simp [rinsert, alookup, h]

/-- Python's `str.capitalize()`: first character upper-cased, the rest
lower-cased; the empty string stays empty. -/
def pyCapitalize (s : String) : String :=
  match s.data with
  | [] => ""
  | c :: rest => String.mk (c.toUpper :: rest.map Char.toLower)

/-- Python's `str.lower()`. -/
def pyLower (s : String) : String := String.mk (s.data.map Char.toLower)

/-- Python float subtraction on record values; a non-numeric operand
raises `TypeError` (modelled as `none`). -/
def pySub (a b : PyVal) : Option PyVal :=
  match a, b with
  | PyVal.num x, PyVal.num y => some (PyVal.num (x - y))
  | _, _ => Option.none

/-- One entry of `WnsThread._DATA_MAP`: wire key, source observation,
aggregation window, aggregation operator, format string. -/
structure FieldSpec where
  key : String
  obs : String
  tim : String
  agg : String
  fstr : String
deriving DecidableEq

/-- The `_DATA_MAP` table of `WnsThread`, in declaration order. -/
def defaultDataMap : List FieldSpec :=
  [⟨"T2AKT_", "outTemp", "", "", "\x7b:.1f\x7d"⟩,
   ⟨"T2MIN_", "outTempDayMin", "", "", "\x7b:.1f\x7d"⟩,
   ⟨"T2MAX_", "outTempDayMax", "", "", "\x7b:.1f\x7d"⟩,
   ⟨"T2D1H_", "outTempDiff1h", "", "", "\x7b:.1f\x7d"⟩,
   ⟨"T5AKT_", "", "", "", "\x7b:.1f\x7d"⟩,
   ⟨"T5MIN_", "", "", "", "\x7b:.1f\x7d"⟩,
   ⟨"LFAKT_", "outHumidity", "", "", "\x7b:.0f\x7d"⟩,
   ⟨"RRD05_", "rain", "", "", "\x7b:.1f\x7d"⟩,
   ⟨"RRD10_", "rain10m", "", "", "\x7b:.1f\x7d"⟩,
   ⟨"RRD1H_", "hourRain", "", "", "\x7b:.1f\x7d"⟩,
   ⟨"RRD3H_", "rain3", "", "", "\x7b:.1f\x7d"⟩,
   ⟨"RRD24H", "rain24", "", "", "\x7b:.1f\x7d"⟩,
   ⟨"RRD1D_", "dayRain", "", "", "\x7b:.1f\x7d"⟩,
   ⟨"WSAKT_", "windSpeed", "", "", "\x7b:.1f\x7d"⟩,
   ⟨"WRAKT_", "windDir", "", "", "\x7b:.0f\x7d"⟩,
   ⟨"WBAKT_", "windGust", "", "", "\x7b:.1f\x7d"⟩,
   ⟨"WSM10_", "windSpeed10", "", "", "\x7b:.1f\x7d"⟩,
   ⟨"WRM10_", "windDir10", "", "", "\x7b:.0f\x7d"⟩,
   ⟨"WSMX1H", "windSpeed", "1h", "max", "\x7b:.1f\x7d"⟩,
   ⟨"WSMX1D", "windSpeed", "Day", "max", "\x7b:.1f\x7d"⟩,
   ⟨"WBMX1D", "windGust", "Day", "max", "\x7b:.1f\x7d"⟩,
   ⟨"WCAKT_", "windchill", "", "", "\x7b:.1f\x7d"⟩,
   ⟨"WCMN1H", "windchill1hMin", "", "", "\x7b:.1f\x7d"⟩,
   ⟨"WCMN1D", "windchillDayMin", "", "", "\x7b:.1f\x7d"⟩,
   ⟨"LDAKT_", "barometer", "", "", "\x7b:.1f\x7d"⟩,
   ⟨"LDABS_", "pressure", "", "", "\x7b:.1f\x7d"⟩,
   ⟨"LDD1H_", "barometer", "1h", "diff", "\x7b:.1f\x7d"⟩,
   ⟨"LDD3H_", "barometer", "3h", "diff", "\x7b:.1f\x7d"⟩,
   ⟨"LDD24H", "barometer", "24h", "diff", "\x7b:.1f\x7d"⟩,
   ⟨"EVA1D_", "dayET", "", "", "\x7b:.1f\x7d"⟩,
   ⟨"SOD1H_", "", "", "", "\x7b:.1f\x7d"⟩,
   ⟨"SOD1D_", "", "", "", "HH:MM"⟩,
   ⟨"BEDGRA", "", "", "", "\x7b:.1f\x7d"⟩,
   ⟨"SSAKT_", "radiation", "", "", "\x7b:.0f\x7d"⟩,
   ⟨"SSMX1H", "radiation1hMax", "", "", "\x7b:.0f\x7d"⟩,
   ⟨"SSMX1D", "radiation", "Day", "max", "\x7b:.0f\x7d"⟩,
   ⟨"UVINDX", "UV", "", "", "\x7b:.1f\x7d"⟩,
   ⟨"UVMX1D", "UVDayMax", "", "", "\x7b:.1f\x7d"⟩,
   ⟨"WOLKUG", "cloudbase", "", "", "\x7b:.0f\x7d"⟩,
   ⟨"SIWEIT", "", "", "", "\x7b:.1f\x7d"⟩,
   ⟨"SNEHOE", "", "", "", "\x7b:.1f\x7d"⟩,
   ⟨"SNEDAT", "", "", "", "date"⟩,
   ⟨"SNEFGR", "", "", "", "\x7b:.1f\x7d"⟩,
   ⟨"T2M1M_", "outTempMonthAvg", "", "", "\x7b:.2f\x7d"⟩,
   ⟨"T2M1MA", "", "", "", "\x7b:.1f\x7d"⟩,
   ⟨"RRDATU", "lastRainDate", "", "", "date"⟩,
   ⟨"RRGEST", "yesterdayRain", "", "", "\x7b:.1f\x7d"⟩,
   ⟨"RRD1M_", "monthRain", "", "", "\x7b:.1f\x7d"⟩,
   ⟨"RRD1MR", "", "", "", "\x7b:.1f\x7d"⟩,
   ⟨"RRD1A_", "yearRain", "", "", "\x7b:.1f\x7d"⟩,
   ⟨"RRD1AR", "", "", "", "\x7b:.1f\x7d"⟩,
   ⟨"EVAD1M", "monthET", "", "", "\x7b:.1f\x7d"⟩,
   ⟨"EVAD1A", "yearET", "", "", "\x7b:.1f\x7d"⟩,
   ⟨"SOD1M_", "", "", "", "\x7b:.2f\x7d"⟩,
   ⟨"SOD1MR", "", "", "", "\x7b:.1f\x7d"⟩,
   ⟨"SOD1A_", "", "", "", "\x7b:.2f\x7d"⟩,
   ⟨"SOD1AR", "", "", "", "\x7b:.1f\x7d"⟩,
   ⟨"KLTSUM", "cooldegsum", "", "", "\x7b:.1f\x7d"⟩,
   ⟨"WRMSUM", "heatdegsum", "", "", "\x7b:.1f\x7d"⟩,
   ⟨"GRASUM", "GTS", "", "", "\x7b:.1f\x7d"⟩,
   ⟨"GRADAT", "GTSdate", "", "", "date"⟩,
   ⟨"TSOI10", "", "", "", "\x7b:.1f\x7d"⟩,
   ⟨"TSOI20", "", "", "", "\x7b:.1f\x7d"⟩,
   ⟨"TSOI50", "", "", "", "\x7b:.1f\x7d"⟩,
   ⟨"WBMX1H", "windGust", "1h", "max", "\x7b:.1f\x7d"⟩,
   ⟨"SSSUMG", "radiationYesterdayIntegral", "", "", "\x7b:.0f\x7d"⟩]

/-- The `_UNIT_MAP` table: unit-group specific target units. -/
def UNIT_MAP : List (String × String) :=
  [("group_rain", "mm"),
   ("group_rainrate", "mm_per_hour"),
   ("group_speed", "km_per_hour")]

/-- External weewx services consumed by the serializer.  A `none` result of
a fallible service models a raised exception of one of the caught classes
(TypeError, ValueError, IndexError, KeyError). -/
structure Env where
  /-- whole-record conversion `weewx.units.to_METRICWX`. -/
  to_METRICWX : Record → Record
  /-- the weewx version string interpolated into the WSOVER token. -/
  version : String
  /-- `time.strftime("%H:%M", time.gmtime ts)`. -/
  strftime_hm : ℚ → String
  /-- `time.strftime("%d.%m.%Y", time.gmtime ts)`. -/
  strftime_dmy : ℚ → String
  /-- the unit and unit group `weewx.units.as_value_tuple` attaches to a
  record field; `none` models a KeyError (for instance missing usUnits). -/
  unitOf : Record → String → Option (String × String)
  /-- `weewx.units.convert` of a value tuple to a target unit. -/
  convert : PyVal × String × String → String → Option (PyVal × String × String)
  /-- Python `fstr.format(value)`. -/
  format : String → PyVal → Option String
  /-- Python `'%.0f:%02.0f' % (hour, min)`. -/
  format_hm : PyVal → PyVal → Option String

/-- The aggregate-lookup key of a table entry, as built in
`__wns_umwandeln`: source observation with capitalized window and
operator suffixes. -/
def fieldRkey (v : FieldSpec) : String :=
  v.obs ++ pyCapitalize v.tim ++ pyCapitalize v.agg

/-- The body of the per-field `try` block of `__wns_umwandeln`: resolve the
field's value tuple, apply the unit-group override, the sunshine-duration
special cases, and the format rule.  `none` models a raised exception. -/
def resolveField (env : Env) (rm : Record) (v : FieldSpec) : Option String :=
  match alookup rm (fieldRkey v) with
  | Option.none => Option.none
  | some val =>
    match env.unitOf rm (fieldRkey v) with
    | Option.none => Option.none
    | some (u0, g0) =>
      let vt0 : PyVal × String × String := (val, u0, g0)
      let step1 : Option (PyVal × String × String) :=
        match alookup UNIT_MAP g0 with
        | some u => env.convert vt0 u
        | Option.none => some vt0
      match step1 with
      | Option.none => Option.none
      | some vt1 =>
        let step2 : Option (PyVal × String × String) :=
          if v.key = "SOD1D_" ∨ v.key = "SOD1M_" ∨ v.key = "SOD1A_" then
            env.convert vt1 "hour"
          else some vt1
        match step2 with
        | Option.none => Option.none
        | some vt2 =>
          let step3 : Option (PyVal × String × String) :=
            if v.key = "SOD1H_" then
              match env.convert vt2 "minute" with
              | Option.none => Option.none
              | some vt3 =>
                match vt3.1 with
                | PyVal.num m =>
                  if 65 < m then Option.none
                  else if 60 < m then some (PyVal.num 60, vt3.2.1, vt3.2.2)
                  else some vt3
                | _ => Option.none
            else some vt2
          match step3 with
          | Option.none => Option.none
          | some vt =>
            if vt.2.2 = "group_time" then
              match val with
              | PyVal.num ts => some (env.strftime_dmy ts)
              | _ => Option.none
            else if v.fstr = "HH:MM" then
              let step4 : Option (PyVal × String × String) :=
                if vt.2.1 ≠ "minute" then env.convert vt "minute" else some vt
              match step4 with
              | Option.none => Option.none
              | some vtm =>
                match vtm.1 with
                | PyVal.num q =>
                    env.format_hm (PyVal.num ((⌊q / 60⌋ : ℤ) : ℚ))
                      (PyVal.num (q - 60 * ((⌊q / 60⌋ : ℤ) : ℚ)))
                | _ => Option.none
            else env.format v.fstr vt.1

/-- The token emitted for one `_DATA_MAP` entry: the placeholder for an
absent or null value, otherwise the resolved value with any exception
caught and degraded to the placeholder. -/
def fieldToken (env : Env) (rm : Record) (v : FieldSpec) : String :=
  match alookup rm (fieldRkey v) with
  | some val =>
    if val = PyVal.none then "--"
    else
      match resolveField env rm v with
      | some s => s
      | Option.none => "--"
  | Option.none => "--"

/-- The guarded temperature-difference computation at the top of
`__wns_umwandeln`: the change of the last hour, skipped if already
present or if the subtraction raises. -/
def addTempDiff (rm : Record) : Record :=
  if (alookup rm "outTempDiff1h").isNone ∧ (alookup rm "outTemp").isSome ∧
      (alookup rm "outTemp1h").isSome then
    match pySub ((alookup rm "outTemp").getD PyVal.none)
        ((alookup rm "outTemp1h").getD PyVal.none) with
    | some d => rinsert rm "outTempDiff1h" d
    | Option.none => rm
  else rm

/-- The guarded barometer-difference computation of `__wns_umwandeln`. -/
def addBaroDiff (rm : Record) : Record :=
  if (alookup rm "barometer1hDiff").isNone ∧ (alookup rm "barometer").isSome ∧
      (alookup rm "barometer1h").isSome then
    match pySub ((alookup rm "barometer").getD PyVal.none)
        ((alookup rm "barometer1h").getD PyVal.none) with
    | some d => rinsert rm "barometer1hDiff" d
    | Option.none => rm
  else rm

/-- Both difference computations, in source order. -/
def addDiffs (rm : Record) : Record := addBaroDiff (addTempDiff rm)

/-- `WnsThread.__wns_umwandeln`: convert the record to METRICWX, add the
one-hour differences, then emit the five header tokens followed by one
token per table entry.  `none` models the uncaught exception raised when
`dateTime` is absent or not a number. -/
def wns_umwandeln (env : Env) (dataMap : List FieldSpec) (record : Record) :
    Option (List String) :=
  match alookup (addDiffs (env.to_METRICWX record)) "dateTime" with
  | some (PyVal.num t) =>
      some (["WNS_V2.3", "WEEWX_" ++ env.version, env.strftime_hm t,
             env.strftime_dmy t, "0"] ++
        dataMap.map (fieldToken env (addDiffs (env.to_METRICWX record))))
  | _ => Option.none

/-- `WnsThread.format_url`: the dataset joined by semicolons and embedded
into the query URL. -/
def format_url (env : Env) (server_url station api_key : String)
    (dataMap : List FieldSpec) (record : Record) : Option String :=
  match wns_umwandeln env dataMap record with
  | some data =>
      some (server_url ++ "?var=" ++ station ++ ";" ++ api_key ++ ";" ++
        String.intercalate ";" data)
  | Option.none => Option.none

/-! ## The GTS accumulator (`WnsThread.calc_gts`) -/

/-- The GTS state kept on the worker object: last processed day, running
sum, threshold crossing day. -/
structure GtsState where
  last_gts_date : Option Int
  gts_value : Option ℚ
  gts_date : Option Int
deriving DecidableEq

/-- The body of one iteration of the `calc_gts` loop for the day starting
at `day`, given the day's mean outside temperature in centigrade (`none`
when the aggregate query yields no data). -/
def gtsDayStep (feb mar : Int) (day : Int) (avg : Option ℚ)
    (value : Option ℚ) (date : Option Int) : Option ℚ × Option Int :=
  match avg with
  | Option.none => (value, date)
  | some a =>
    let v0 : ℚ := value.getD 0
    if 0 < a then
      let w : ℚ := if day < feb then a * (1 / 2)
                   else if day < mar then a * (3 / 4)
                   else a
      let v1 := v0 + w
      (some v1, if 200 ≤ v1 ∧ date = Option.none then some day else date)
    else (some v0, date)

/-- The catch-up loop of `calc_gts`: one iteration per day while the last
processed day is before the start of the current day and before the
early-June cutoff; the day advances unconditionally and the loop counter
mirrors `_loop_ct`. -/
def gtsLoop (sod endTs feb mar : Int) (db : Int → Option ℚ)
    (last : Int) (value : Option ℚ) (date : Option Int) (ct : Nat) :
    Int × Option ℚ × Option Int × Nat :=
  if last < sod ∧ last < endTs then
    let s := gtsDayStep feb mar last (db last) value date
    gtsLoop sod endTs feb mar db (last + 86400) s.1 s.2 (ct + 1)
  else (last, value, date, ct)
termination_by (min sod endTs - last).toNat
decreasing_by simp_wf; omega

/-- The initialization guard of `calc_gts`: at program start (no state) or
when the stored day precedes the start of the current year, the state is
reset to the start of the year with the running sum and the crossing day
both unset. -/
def gtsInit (soy : Int) (s : GtsState) : GtsState :=
  match s.last_gts_date with
  | Option.none =>
      ({ last_gts_date := some soy, gts_value := Option.none,
         gts_date := Option.none } : GtsState)
  | some l =>
      if l < soy then
        ({ last_gts_date := some soy, gts_value := Option.none,
           gts_date := Option.none } : GtsState)
      else s

/-- `WnsThread.calc_gts`, given the start of the current day and of the
current year (the external calendar helpers) and the daily mean
temperature oracle (`get_aggregate` composed with conversion to
centigrade).  Returns the new state and the number of loop iterations,
each of which issues one aggregate query; the cutoffs mirror the source:
February 1 is `soy + 2678400`, March 1 `+ 2419200` more, June 1
`+ 7948800` more. -/
def calc_gts (sod soy : Int) (db : Int → Option ℚ) (s : GtsState) :
    GtsState × Nat :=
  let s1 := gtsInit soy s
  let r := gtsLoop sod ((soy + 2678400) + 2419200 + 7948800)
    (soy + 2678400) ((soy + 2678400) + 2419200) db
    (s1.last_gts_date.getD soy) s1.gts_value s1.gts_date 0
  (⟨some r.1, r.2.1, r.2.2.1⟩, r.2.2.2)

/-! ## Historical storage and the enrichment pass (`WnsThread.get_record`) -/

/-- Minimum of a list of timestamps; `none` on the empty list.  Modelled
from the spec: the historical-storage range query interface returns a
value or null (design document, External Interfaces). -/
def sqlMin : List ℚ → Option ℚ
  | [] => Option.none
  | x :: xs =>
    match sqlMin xs with
    | Option.none => some x
    | some m => some (min x m)

/-- Maximum of a list of timestamps; `none` on the empty list.  Modelled
from the spec like `sqlMin`. -/
def sqlMax : List ℚ → Option ℚ
  | [] => Option.none
  | x :: xs =>
    match sqlMax xs with
    | Option.none => some x
    | some m => some (max x m)

/-- Historical storage as seen by `get_record`: the archive timestamps
plus one oracle per SQL/aggregate query shape.  A `none` result models an
absent row or a raised-and-caught error. -/
structure DbManager where
  /-- the `dateTime` column of the archive table. -/
  dateTimes : List ℚ
  /-- `SELECT outTemp,barometer,pressure WHERE dateTime=? and dateTime<=?`. -/
  row3 : ℚ → ℚ → Option (PyVal × PyVal × PyVal)
  /-- `SELECT MIN(windchill),MAX(radiation) WHERE dateTime>? and dateTime<=?`. -/
  wcRad : ℚ → ℚ → Option (PyVal × PyVal)
  /-- `SELECT MIN(outTemp),MAX(outTemp),MIN(windchill),MAX(UV)` over the day. -/
  dayMinMax : ℚ → ℚ → Option (PyVal × PyVal × PyVal × PyVal)
  /-- `SELECT MAX(dateTime) WHERE rain>0.0 AND dateTime<=?`. -/
  lastRain : ℚ → Option PyVal
  /-- `SELECT SUM(radiation*interval)/60.0, MIN(usUnits), MAX(usUnits)`. -/
  radInt : ℚ → ℚ → Option (PyVal × PyVal × PyVal)
  /-- `weewx.xtypes.get_aggregate(obs, span, op, db)` as a value tuple. -/
  agg : String → ℚ × ℚ → String → Option (PyVal × String × String)
  /-- daily mean outside temperature in centigrade, used by `calc_gts`. -/
  gtsAvg : Int → Option ℚ

/-- External host services consumed by `get_record`: the parent class
record pass, the weeutil calendar helpers and `weewx.units.convertStd`. -/
structure CalEnv where
  /-- `weewx.restx.RESTThread.get_record` (the parent class). -/
  parent : Record → Record
  /-- `weeutil.weeutil.startOfDay`. -/
  startOfDay : ℚ → Int
  /-- `weeutil.weeutil.archiveYearSpan(t)[0]`. -/
  yearStart : ℚ → Int
  /-- `weeutil.weeutil.archiveDaySpan`. -/
  daySpan : ℚ → ℚ × ℚ
  /-- `weeutil.weeutil.archiveDaySpan(t, days_ago=1)`. -/
  yesterdaySpan : ℚ → ℚ × ℚ
  /-- `weeutil.weeutil.archiveMonthSpan`. -/
  monthSpan : ℚ → ℚ × ℚ
  /-- `weeutil.weeutil.archiveYearSpan`. -/
  yearSpan : ℚ → ℚ × ℚ
  /-- `weewx.units.convertStd(vt, record['usUnits'])[0]`; `none` models a
  raised exception. -/
  convertStd : Record → (PyVal × String × String) → Option PyVal

/-- The two-query nearest-hour-ago lookup at the top of `get_record`:
the earliest record within the last 60 to 55 minutes, then as fallback
the latest record within the last 65 to 60 minutes. -/
def ago1_lookup (db : DbManager) (t : ℚ) : Option ℚ :=
  match sqlMin ((db.dateTimes.filter (fun x => t - 3600 ≤ x ∧ x ≤ t - 3300))) with
  | some x => some x
  | Option.none =>
      sqlMax ((db.dateTimes.filter (fun x => t - 3900 ≤ x ∧ x ≤ t - 3600)))

/-- Number of storage queries the nearest-hour-ago lookup issues: the
fallback query runs only when the first window is empty. -/
def ago1_count (db : DbManager) (t : ℚ) : Nat :=
  match sqlMin ((db.dateTimes.filter (fun x => t - 3600 ≤ x ∧ x ≤ t - 3300))) with
  | some _ => 1
  | Option.none => 2

/-- Day minimum/maximum block: computed only when `outTempDayMax` is
absent and now is strictly after the start of the day. -/
def step_dayminmax (db : DbManager) (sod : Int) (t : ℚ) (dd : Record) :
    Record × Nat :=
  if (alookup dd "outTempDayMax").isNone ∧ (sod : ℚ) < t then
    match db.dayMinMax (sod : ℚ) t with
    | some r =>
        (rinsert (rinsert (rinsert (rinsert dd "outTempDayMin" r.1)
          "outTempDayMax" r.2.1) "windchillDayMin" r.2.2.1) "UVDayMax" r.2.2.2, 1)
    | Option.none => (dd, 1)
  else (dd, 0)

/-- One-hour baseline block: the point query for temperature, barometer
and pressure one hour ago and the windchill/radiation extrema query, both
issued whenever the nearest-hour-ago timestamp was found; each assignment
is skipped when the field is already present. -/
def step_baseline (db : DbManager) (ago : Option ℚ) (t : ℚ) (dd : Record) :
    Record × Nat :=
  match ago with
  | some a =>
    let dd1 :=
      match db.row3 a t with
      | some r =>
        let dd1 := if (alookup dd "outTemp1h").isNone then
            rinsert dd "outTemp1h" r.1 else dd
        let dd2 := if (alookup dd1 "barometer1h").isNone then
            rinsert dd1 "barometer1h" r.2.1 else dd1
        if (alookup dd2 "pressure1h").isNone then
            rinsert dd2 "pressure1h" r.2.2 else dd2
      | Option.none => dd
    let dd2 :=
      match db.wcRad a t with
      | some r =>
        let dd3 := if (alookup dd1 "windchill1hMin").isNone then
            rinsert dd1 "windchill1hMin" r.1 else dd1
        if (alookup dd3 "radiation1hMax").isNone then
            rinsert dd3 "radiation1hMax" r.2 else dd3
      | Option.none => dd1
    (dd2, 2)
  | Option.none => (dd, 0)

/-- Last-rain-date block: the query is always issued; the assignment is
skipped when the field is already present. -/
def step_lastrain (db : DbManager) (t : ℚ) (dd : Record) : Record × Nat :=
  match db.lastRain t with
  | some v =>
      (if (alookup dd "lastRainDate").isNone then
        rinsert dd "lastRainDate" v else dd, 1)
  | Option.none => (dd, 1)

/-- `WnsThread.calc_radiation_integral`: one SQL query; an inconsistent
unit pair aborts the computation. -/
def calc_radiation_integral (db : DbManager) (span : ℚ × ℚ) :
    Option PyVal × Nat :=
  match db.radInt span.1 span.2 with
  | some r => if r.2.1 ≠ r.2.2 then (Option.none, 1) else (some r.1, 1)
  | Option.none => (Option.none, 1)

/-- Yesterday radiation integral block: always recomputed; the result,
when available, overwrites any caller-supplied value. -/
def step_radint (db : DbManager) (span : ℚ × ℚ) (dd : Record) :
    Record × Nat :=
  let r := calc_radiation_integral db span
  match r.1 with
  | some v => (rinsert dd "radiationYesterdayIntegral" v, r.2)
  | Option.none => (dd, r.2)

/-- GTS block of `get_record`: run `calc_gts` when the field is absent,
then add `GTS` (converted to the record's unit system) and `GTSdate`; a
conversion error skips both assignments. -/
def step_gts (cal : CalEnv) (db : DbManager) (t : ℚ) (s : GtsState)
    (dd : Record) : GtsState × Record × Nat :=
  if (alookup dd "GTS").isNone then
    let r := calc_gts (cal.startOfDay t) (cal.yearStart t) db.gtsAvg s
    let withGts : Option Record :=
      match r.1.gts_value with
      | some v =>
          (cal.convertStd dd
            (PyVal.num v, "degree_C_day", "group_degree_day")).map
            (fun pv => rinsert dd "GTS" pv)
      | Option.none => some dd
    match withGts with
    | some dd1 =>
      let dd2 :=
        match r.1.gts_date with
        | some d => rinsert dd1 "GTSdate" (PyVal.num (d : ℚ))
        | Option.none => dd1
      (r.1, dd2, r.2)
    | Option.none => (r.1, dd, r.2)
  else (s, dd, 0)

/-- Month-average temperature block: the aggregate query is always issued
and the result unconditionally overwrites `outTempMonthAvg`. -/
def step_monthavg (cal : CalEnv) (db : DbManager) (span : ℚ × ℚ)
    (dd : Record) : Record × Nat :=
  match db.agg "outTemp" span "avg" with
  | some vt =>
      match cal.convertStd dd vt with
      | some pv => (rinsert dd "outTempMonthAvg" pv, 1)
      | Option.none => (dd, 1)
  | Option.none => (dd, 1)

/-- One guarded aggregate assignment inside a shared `try` block: skipped
when the field is present or when an earlier step of the same block
raised; a raise (`none` from the oracle or the conversion) aborts the
rest of the block. -/
def runAggStep (cal : CalEnv) (db : DbManager) (st : Record × Nat × Bool)
    (key obs : String) (span : ℚ × ℚ) (op : String) : Record × Nat × Bool :=
  if st.2.2 then st
  else if (alookup st.1 key).isSome then st
  else
    match db.agg obs span op with
    | some vt =>
        match cal.convertStd st.1 vt with
        | some pv => (rinsert st.1 key pv, st.2.1 + 1, false)
        | Option.none => (st.1, st.2.1 + 1, true)
    | Option.none => (st.1, st.2.1 + 1, true)

/-- Rain block: yesterday, month, year, last three hours and last ten
minutes rain sums, all inside one `try`. -/
def step_rain (cal : CalEnv) (db : DbManager) (yesterdayspan monthspan
    yearspan h3span m10span : ℚ × ℚ) (dd : Record) : Record × Nat :=
  let st := runAggStep cal db (dd, 0, false) "yesterdayRain" "rain" yesterdayspan "sum"
  let st := runAggStep cal db st "monthRain" "rain" monthspan "sum"
  let st := runAggStep cal db st "yearRain" "rain" yearspan "sum"
  let st := runAggStep cal db st "rain3" "rain" h3span "sum"
  let st := runAggStep cal db st "rain10m" "rain" m10span "sum"
  (st.1, st.2.1)

/-- Evapotranspiration block: day, month and year sums inside one `try`. -/
def step_et (cal : CalEnv) (db : DbManager) (dayspan monthspan
    yearspan : ℚ × ℚ) (dd : Record) : Record × Nat :=
  let st := runAggStep cal db (dd, 0, false) "dayET" "ET" dayspan "sum"
  let st := runAggStep cal db st "monthET" "ET" monthspan "sum"
  let st := runAggStep cal db st "yearET" "ET" yearspan "sum"
  (st.1, st.2.1)

/-- One iteration of the final aggregation loop over the table: entries
with a window and an operator whose aggregate field is absent get one
aggregate query, each inside its own `try`. -/
def aggLoopStep (cal : CalEnv) (db : DbManager) (h1span h3span h24span
    dayspan yesterdayspan monthspan yearspan : ℚ × ℚ)
    (st : Record × Nat) (v : FieldSpec) : Record × Nat :=
  let rky := v.obs ++ v.tim ++ pyCapitalize v.agg
  if v.tim ≠ "" ∧ v.agg ≠ "" ∧ (alookup st.1 rky).isNone then
    let tts : Option (ℚ × ℚ) :=
      if v.tim = "1h" then some h1span
      else if v.tim = "3h" then some h3span
      else if v.tim = "24h" then some h24span
      else if v.tim = "Day" then some dayspan
      else if v.tim = "Yesterday" then some yesterdayspan
      else if v.tim = "Month" then some monthspan
      else if v.tim = "Year" then some yearspan
      else Option.none
    match tts with
    | Option.none => st
    | some sp =>
      match db.agg v.obs sp (pyLower v.agg) with
      | some vt =>
          match cal.convertStd st.1 vt with
          | some pv => (rinsert st.1 rky pv, st.2 + 1)
          | Option.none => (st.1, st.2 + 1)
      | Option.none => (st.1, st.2 + 1)
  else st

/-- `WnsThread.get_record`: the enrichment pass.  Returns the new GTS
state, the augmented record and the number of historical-storage queries
issued; `none` models the uncaught exception raised when the parent
record has no numeric `dateTime`. -/
def get_record (cal : CalEnv) (dataMap : List FieldSpec) (db : DbManager)
    (s : GtsState) (record : Record) : Option (GtsState × Record × Nat) :=
  let dd0 := cal.parent record
  match alookup dd0 "dateTime" with
  | some (PyVal.num t) =>
    let sod := cal.startOfDay t
    let ago := ago1_lookup db t
    let c0 := ago1_count db t
    let dayspan := cal.daySpan t
    let yesterdayspan := cal.yesterdaySpan t
    let monthspan := cal.monthSpan t
    let yearspan := cal.yearSpan t
    let h1span : ℚ × ℚ := (t - 3600, t)
    let h3span : ℚ × ℚ := (t - 10800, t)
    let h24span : ℚ × ℚ := (t - 86400, t)
    let m10span : ℚ × ℚ := (t - 600, t)
    let r1 := step_dayminmax db sod t dd0
    let r2 := step_baseline db ago t r1.1
    let r3 := step_lastrain db t r2.1
    let r4 := step_radint db yesterdayspan r3.1
    let r5 := step_gts cal db t s r4.1
    let r6 := step_monthavg cal db monthspan r5.2.1
    let r7 := step_rain cal db yesterdayspan monthspan yearspan h3span m10span r6.1
    let r8 := step_et cal db dayspan monthspan yearspan r7.1
    let r9 := dataMap.foldl
      (aggLoopStep cal db h1span h3span h24span dayspan yesterdayspan
        monthspan yearspan) (r8.1, 0)
    some (r5.1, r9.1,
      c0 + r1.2 + r2.2 + r3.2 + r4.2 + r5.2.2 + r6.2 + r7.2 + r8.2 + r9.2)
  | _ => Option.none

/-! ## The delivery queue (`Wns.new_archive_record`) -/

/-- The bounded queue put.  Modelled from the spec: the Python standard
library `queue.Queue(maxsize).put(item, timeout)` is external; per the
design document's overflow policy the put succeeds when the queue is
below capacity and raises `queue.Full` once the timeout expires on a full
queue. -/
def queue_put {α : Type} (cap : Nat) (q : List α) (x : α) :
    Except Unit (List α) :=
  if q.length < cap then Except.ok (q ++ [x]) else Except.error ()

/-- `Wns.new_archive_record`: enqueue with capacity five; on `queue.Full`
the record is dropped and an error line is logged (returned here). -/
def new_archive_record (q : List Record) (r : Record) :
    List Record × Option String :=
  match queue_put 5 q r with
  | Except.ok q1 => (q1, Option.none)
  | Except.error _ => (q, some "Queue is full. Thread died?")

/-! ## Concrete instances used by witnesses and counterexamples -/

/-- A concrete serializer environment: identity record conversion,
identity unit conversion between equal units, and numeric formatting that
tags the value's numerator. -/
def testEnv : Env where
  to_METRICWX := id
  version := "4.10.2"
  strftime_hm := fun _ => "12:34"
  strftime_dmy := fun _ => "05.06.2024"
  unitOf := fun _ k =>
    if k = "GTS" then some ("degree_C_day", "group_degree_day")
    else some ("minute", "group_elapsed")
  convert := fun vt u => if vt.2.1 = u then some vt else Option.none
  format := fun _ v =>
    match v with
    | PyVal.num q => some ("val" ++ toString q.num)
    | _ => Option.none
  format_hm := fun a b =>
    match a, b with
    | PyVal.num x, PyVal.num y =>
        some ("hm:" ++ toString x.num ++ ":" ++ toString y.num)
    | _, _ => Option.none

/-- A concrete daily-mean oracle: ten degrees on January 1, twenty on
January 2, no data afterwards. -/
def gtsDb2 : Int → Option ℚ :=
  fun d => if d = 0 then some 10 else if d = 86400 then some 20 else
    Option.none

/-- A concrete calendar environment for the GTS enrichment witnesses. -/
def gtsCal : CalEnv where
  parent := id
  startOfDay := fun _ => 172800
  yearStart := fun _ => 0
  daySpan := fun t => (t - 86400, t)
  yesterdaySpan := fun t => (t - 172800, t - 86400)
  monthSpan := fun t => (t - 2592000, t)
  yearSpan := fun t => (t - 31536000, t)
  convertStd := fun _ vt => some vt.1

/-- A concrete storage instance whose only temperature datum is a
negative mean on January 1. -/
def gtsDbm : DbManager where
  dateTimes := []
  row3 := fun _ _ => Option.none
  wcRad := fun _ _ => Option.none
  dayMinMax := fun _ _ => Option.none
  lastRain := fun _ => Option.none
  radInt := fun _ _ => Option.none
  agg := fun _ _ _ => Option.none
  gtsAvg := fun d => if d = 0 then some (-5) else Option.none

/-- A concrete calendar environment for the enrichment witnesses. -/
def c6Cal : CalEnv where
  parent := id
  startOfDay := fun _ => 0
  yearStart := fun _ => 0
  daySpan := fun t => (t - 86400, t)
  yesterdaySpan := fun t => (t - 172800, t - 86400)
  monthSpan := fun t => (t - 2592000, t)
  yearSpan := fun t => (t - 31536000, t)
  convertStd := fun _ vt => some vt.1

/-- A concrete storage instance with one archive row fifty-five to sixty
minutes old and data behind every query shape. -/
def c6Db : DbManager where
  dateTimes := [96400]
  row3 := fun _ _ => some (PyVal.num 1, PyVal.num 2, PyVal.num 3)
  wcRad := fun _ _ => some (PyVal.num 4, PyVal.num 5)
  dayMinMax := fun _ _ =>
    some (PyVal.num 1, PyVal.num 2, PyVal.num 3, PyVal.num 4)
  lastRain := fun _ => some (PyVal.num 6)
  radInt := fun _ _ => some (PyVal.num 8, PyVal.num 16, PyVal.num 16)
  agg := fun _ _ _ => some (PyVal.num 7, "degree_C", "group_temperature")
  gtsAvg := fun _ => Option.none

/-- A record in which every field the enrichment pass could derive is
already present (value one), timestamped at 100000. -/
def c6Rec : Record :=
  [("dateTime", PyVal.num 100000),
   ("outTempDayMin", PyVal.num 1), ("outTempDayMax", PyVal.num 1),
   ("windchillDayMin", PyVal.num 1), ("UVDayMax", PyVal.num 1),
   ("outTemp1h", PyVal.num 1), ("barometer1h", PyVal.num 1),
   ("pressure1h", PyVal.num 1), ("windchill1hMin", PyVal.num 1),
   ("radiation1hMax", PyVal.num 1), ("lastRainDate", PyVal.num 1),
   ("radiationYesterdayIntegral", PyVal.num 1), ("GTS", PyVal.num 1),
   ("GTSdate", PyVal.num 1), ("outTempMonthAvg", PyVal.num 1),
   ("yesterdayRain", PyVal.num 1), ("monthRain", PyVal.num 1),
   ("yearRain", PyVal.num 1), ("rain3", PyVal.num 1),
   ("rain10m", PyVal.num 1), ("dayET", PyVal.num 1),
   ("monthET", PyVal.num 1), ("yearET", PyVal.num 1),
   ("windSpeed1hMax", PyVal.num 1), ("windSpeedDayMax", PyVal.num 1),
   ("windGustDayMax", PyVal.num 1), ("barometer1hDiff", PyVal.num 1),
   ("barometer3hDiff", PyVal.num 1), ("barometer24hDiff", PyVal.num 1),
   ("radiationDayMax", PyVal.num 1), ("windGust1hMax", PyVal.num 1)]

/-- The derived-field keys whose presence makes every guarded enrichment
step skip its recomputation. -/
def presenceKeys : List String :=
  ["outTempDayMax", "outTemp1h", "barometer1h", "pressure1h",
   "windchill1hMin", "radiation1hMax", "lastRainDate", "GTS",
   "yesterdayRain", "monthRain", "yearRain", "rain3", "rain10m",
   "dayET", "monthET", "yearET", "windSpeed1hMax", "windSpeedDayMax",
   "windGustDayMax", "barometer1hDiff", "barometer3hDiff",
   "barometer24hDiff", "radiationDayMax", "windGust1hMax"]

end WnsVerify

namespace WnsVerify

/-! ## Helper lemmas -/

/-- A token is the placeholder when the aggregate key is absent. -/
theorem fieldToken_of_lookup_none {env : Env} {rm : Record} {v : FieldSpec}
    (h : alookup rm (fieldRkey v) = Option.none) :
    fieldToken env rm v = "--" := by
  unfold fieldToken
  rw [h]

/-- A token is the placeholder when the value is Python `None`. -/
theorem fieldToken_of_null {env : Env} {rm : Record} {v : FieldSpec}
    (h : alookup rm (fieldRkey v) = some PyVal.none) :
    fieldToken env rm v = "--" := by
  unfold fieldToken
  rw [h]
  simp

/-- A token is the placeholder when the resolution pipeline raises. -/
theorem fieldToken_of_resolve_none {env : Env} {rm : Record} {v : FieldSpec}
    (h : resolveField env rm v = Option.none) :
    fieldToken env rm v = "--" := by
  unfold fieldToken
  cases hl : alookup rm (fieldRkey v) with
  | none => rfl
  | some val =>
    by_cases hv : val = PyVal.none
    · simp [hv]
    · simp [hv, h]

/-- A token of a successfully resolved value is that value. -/
theorem fieldToken_of_resolve_some {env : Env} {rm : Record} {v : FieldSpec}
    {val : PyVal} {s : String}
    (hl : alookup rm (fieldRkey v) = some val) (hv : val ≠ PyVal.none)
    (h : resolveField env rm v = some s) :
    fieldToken env rm v = s := by
  unfold fieldToken
  rw [hl]
  simp [hv, h]

/-- The temperature-difference computation leaves other keys unchanged. -/
theorem addTempDiff_alookup (rm : Record) (k : String)
    (h1 : "outTempDiff1h" ≠ k) :
    alookup (addTempDiff rm) k = alookup rm k := by
  unfold addTempDiff
  split
  · cases pySub ((alookup rm "outTemp").getD PyVal.none)
      ((alookup rm "outTemp1h").getD PyVal.none) with
    | none => rfl
    | some d => exact alookup_rinsert_other rm _ k d h1
  · rfl

/-- The barometer-difference computation leaves other keys unchanged. -/
theorem addBaroDiff_alookup (rm : Record) (k : String)
    (h2 : "barometer1hDiff" ≠ k) :
    alookup (addBaroDiff rm) k = alookup rm k := by
  unfold addBaroDiff
  split
  · cases pySub ((alookup rm "barometer").getD PyVal.none)
      ((alookup rm "barometer1h").getD PyVal.none) with
    | none => rfl
    | some d => exact alookup_rinsert_other rm _ k d h2
  · rfl

/-- The two difference computations leave every other key unchanged. -/
theorem addDiffs_alookup (rm : Record) (k : String)
    (h1 : "outTempDiff1h" ≠ k) (h2 : "barometer1hDiff" ≠ k) :
    alookup (addDiffs rm) k = alookup rm k := by
  unfold addDiffs
  rw [addBaroDiff_alookup _ _ h2, addTempDiff_alookup _ _ h1]

/-! ## Claim theorems -/

/-- C1: for every input record with a numeric timestamp, the serializer
emits exactly one token per table entry in table order, preceded by the
five fixed header tokens, and the URL is the base URL, `?var=`, station,
API key and all tokens joined strictly by semicolons. -/
theorem serializer_fixed_shape (env : Env) (dataMap : List FieldSpec)
    (record : Record) (t : ℚ) (url station api_key : String)
    (h : alookup (env.to_METRICWX record) "dateTime" = some (PyVal.num t)) :
    ∃ tokens, wns_umwandeln env dataMap record = some tokens ∧
      tokens.length = 5 + dataMap.length ∧
      tokens.take 5 = ["WNS_V2.3", "WEEWX_" ++ env.version,
        env.strftime_hm t, env.strftime_dmy t, "0"] ∧
      (∃ rm, tokens.drop 5 = dataMap.map (fieldToken env rm)) ∧
      format_url env url station api_key dataMap record =
        some (url ++ "?var=" ++ station ++ ";" ++ api_key ++ ";" ++
          String.intercalate ";" tokens) := by
  have hd : alookup (addDiffs (env.to_METRICWX record)) "dateTime" =
      some (PyVal.num t) := by
    rw [addDiffs_alookup _ _ (by decide) (by decide)]
    exact h
  have hw : wns_umwandeln env dataMap record =
      some (["WNS_V2.3", "WEEWX_" ++ env.version, env.strftime_hm t,
        env.strftime_dmy t, "0"] ++
        dataMap.map (fieldToken env (addDiffs (env.to_METRICWX record)))) := by
    unfold wns_umwandeln
    rw [hd]
  refine ⟨_, hw, ?_, ?_,
    ⟨addDiffs (env.to_METRICWX record), ?_⟩, ?_⟩
  · simp
    omega
  · rfl
  · rfl
  · unfold format_url
    rw [hw]

/-- C1 witness: a concrete record with only a timestamp serializes to the
five headers followed by sixty-six placeholder tokens. -/
theorem serializer_fixed_shape_witness :
    (∃ tokens, wns_umwandeln testEnv defaultDataMap
        [("dateTime", PyVal.num 0)] = some tokens ∧
      tokens.length = 5 + defaultDataMap.length ∧
      tokens.take 5 = ["WNS_V2.3", "WEEWX_" ++ testEnv.version,
        testEnv.strftime_hm 0, testEnv.strftime_dmy 0, "0"] ∧
      (∃ rm, tokens.drop 5 = defaultDataMap.map (fieldToken testEnv rm)) ∧
      format_url testEnv "http://x" "ST" "KEY" defaultDataMap
          [("dateTime", PyVal.num 0)] =
        some ("http://x" ++ "?var=" ++ "ST" ++ ";" ++ "KEY" ++ ";" ++
          String.intercalate ";" tokens)) ∧
    wns_umwandeln testEnv defaultDataMap [("dateTime", PyVal.num 0)] =
      some (["WNS_V2.3", "WEEWX_4.10.2", "12:34", "05.06.2024", "0"] ++
        List.replicate 66 "--") :=
  ⟨serializer_fixed_shape testEnv defaultDataMap [("dateTime", PyVal.num 0)]
      0 "http://x" "ST" "KEY" (by decide),
   by decide⟩

/-- C2: the serialized record is a per-entry map, so one field's token is
a function of that entry and the record alone, and any exception in the
resolution pipeline of an entry degrades that entry to the placeholder
token without affecting the rest. -/
theorem per_field_isolation (env : Env) (dataMap : List FieldSpec)
    (record : Record) (t : ℚ)
    (h : alookup (env.to_METRICWX record) "dateTime" = some (PyVal.num t)) :
    wns_umwandeln env dataMap record =
      some (["WNS_V2.3", "WEEWX_" ++ env.version, env.strftime_hm t,
        env.strftime_dmy t, "0"] ++
        dataMap.map (fieldToken env (addDiffs (env.to_METRICWX record)))) ∧
    ∀ (rm : Record) (v : FieldSpec), resolveField env rm v = Option.none →
      fieldToken env rm v = "--" := by
  constructor
  · unfold wns_umwandeln
    rw [addDiffs_alookup _ _ (by decide) (by decide), h]
  · intro rm v hres
    exact fieldToken_of_resolve_none hres

/-- C2 witness: a record whose `outTemp` is a string still serializes,
the bad field as the placeholder and an intact field to its value. -/
theorem per_field_isolation_witness :
    fieldToken testEnv [("dateTime", PyVal.num 0), ("outTemp", PyVal.str "x"),
        ("outHumidity", PyVal.num 50)]
      ⟨"T2AKT_", "outTemp", "", "", "\x7b:.1f\x7d"⟩ = "--" ∧
    resolveField testEnv [("dateTime", PyVal.num 0), ("outTemp", PyVal.str "x"),
        ("outHumidity", PyVal.num 50)]
      ⟨"T2AKT_", "outTemp", "", "", "\x7b:.1f\x7d"⟩ = Option.none ∧
    fieldToken testEnv [("dateTime", PyVal.num 0), ("outTemp", PyVal.str "x"),
        ("outHumidity", PyVal.num 50)]
      ⟨"LFAKT_", "outHumidity", "", "", "\x7b:.0f\x7d"⟩ = "val50" :=
  ⟨(per_field_isolation testEnv defaultDataMap
      [("dateTime", PyVal.num 0), ("outTemp", PyVal.str "x"),
        ("outHumidity", PyVal.num 50)] 0 (by decide)).2 _ _ (by decide),
   by decide, by decide⟩

/-- A successfully resolved token comes from one of the three formatting
services, so it is never the placeholder when none of them can return
the placeholder string. -/
theorem resolveField_ne_dashes {env : Env} {rm : Record} {v : FieldSpec}
    {s : String}
    (hfmt : ∀ f x s1, env.format f x = some s1 → s1 ≠ "--")
    (hhm : ∀ a b s1, env.format_hm a b = some s1 → s1 ≠ "--")
    (hdmy : ∀ q, env.strftime_dmy q ≠ "--")
    (h : resolveField env rm v = some s) : s ≠ "--" := by
  simp only [resolveField] at h
  repeat' split at h
  all_goals
    first
    | exact Option.noConfusion h
    | exact hhm _ _ _ h
    | exact hfmt _ _ _ h
    | (injection h with h; subst h; exact hdmy _)

/-- C3 counterexample: a present, non-null sunshine-duration value of 66
minutes serializes to the placeholder, so the placeholder is not produced
only for absent or null values. -/
theorem placeholder_only_if_null_cex :
    alookup [("sunshineDur1hSum", PyVal.num 66)] "sunshineDur1hSum" =
      some (PyVal.num 66) ∧
    PyVal.num 66 ≠ PyVal.none ∧
    fieldRkey ⟨"SOD1H_", "sunshineDur", "1h", "sum", "\x7b:.1f\x7d"⟩ =
      "sunshineDur1hSum" ∧
    fieldToken testEnv [("sunshineDur1hSum", PyVal.num 66)]
      ⟨"SOD1H_", "sunshineDur", "1h", "sum", "\x7b:.1f\x7d"⟩ = "--" := by
  refine ⟨by decide, by decide, by decide, by decide⟩

/-- C3 amended: assuming the formatting services never produce the
literal placeholder string, a token is the placeholder if and only if the
field's value is absent, is null, or its resolution raised (for instance
a type mismatch or the sunshine-duration limit). -/
theorem placeholder_iff_unresolved (env : Env) (rm : Record) (v : FieldSpec)
    (hfmt : ∀ f x s1, env.format f x = some s1 → s1 ≠ "--")
    (hhm : ∀ a b s1, env.format_hm a b = some s1 → s1 ≠ "--")
    (hdmy : ∀ q, env.strftime_dmy q ≠ "--") :
    fieldToken env rm v = "--" ↔
      (alookup rm (fieldRkey v) = Option.none ∨
       alookup rm (fieldRkey v) = some PyVal.none ∨
       resolveField env rm v = Option.none) := by
  constructor
  · intro h
    cases hl : alookup rm (fieldRkey v) with
    | none => exact Or.inl rfl
    | some val =>
      by_cases hv : val = PyVal.none
      · exact Or.inr (Or.inl (by rw [hv]))
      · cases hr : resolveField env rm v with
        | none => exact Or.inr (Or.inr rfl)
        | some s =>
          exfalso
          have ht : fieldToken env rm v = s :=
            fieldToken_of_resolve_some hl hv hr
          rw [ht] at h
          exact (resolveField_ne_dashes hfmt hhm hdmy hr) h
  · rintro (h | h | h)
    · exact fieldToken_of_lookup_none h
    · exact fieldToken_of_null h
    · exact fieldToken_of_resolve_none h

/-- C3 amended witness: the equivalence applied to the concrete
environment, on the sunshine counterexample record and on a record where
the field is simply absent. -/
theorem placeholder_iff_unresolved_witness :
    fieldToken testEnv [("sunshineDur1hSum", PyVal.num 66)]
      ⟨"SOD1H_", "sunshineDur", "1h", "sum", "\x7b:.1f\x7d"⟩ = "--" ∧
    fieldToken testEnv []
      ⟨"T2AKT_", "outTemp", "", "", "\x7b:.1f\x7d"⟩ = "--" := by
  have hfmt : ∀ f x s1, testEnv.format f x = some s1 → s1 ≠ "--" := by
    intro f x s1 h
    cases x with
    | num q =>
      simp only [testEnv] at h
      injection h with h
      intro hc
      rw [← h] at hc
      have h2 := congrArg String.length hc
      simp [String.length_append] at h2
      rw [show ("val".length) = 3 from rfl, show ("--".length) = 2 from rfl] at h2
      omega
    | str s => simp [testEnv] at h
    | none => simp [testEnv] at h
  have hhm : ∀ a b s1, testEnv.format_hm a b = some s1 → s1 ≠ "--" := by
    intro a b s1 h
    cases a with
    | num x =>
      cases b with
      | num y =>
        simp only [testEnv] at h
        injection h with h
        intro hc
        rw [← h] at hc
        have h2 := congrArg String.length hc
        simp [String.length_append] at h2
        rw [show ("hm:".length) = 3 from rfl, show (":".length) = 1 from rfl,
          show ("--".length) = 2 from rfl] at h2
        omega
      | str s => simp [testEnv] at h
      | none => simp [testEnv] at h
    | str s => simp [testEnv] at h
    | none => simp [testEnv] at h
  have hdmy : ∀ q, testEnv.strftime_dmy q ≠ "--" := by
    intro q
    simp [testEnv]
  exact ⟨(placeholder_iff_unresolved testEnv _ _ hfmt hhm hdmy).mpr
      (Or.inr (Or.inr (by decide))),
    (placeholder_iff_unresolved testEnv _ _ hfmt hhm hdmy).mpr
      (Or.inl (by decide))⟩

/-- The resolution pipeline of the hourly sunshine-duration field, as a
function of the minute-converted value. -/
theorem resolveField_sod1h {env : Env} {rm : Record} {v : FieldSpec}
    {val : PyVal} {u0 g0 : String} {vt1 : PyVal × String × String}
    {m : ℚ} {u1 g1 : String}
    (hk : v.key = "SOD1H_")
    (hval : alookup rm (fieldRkey v) = some val)
    (hug : env.unitOf rm (fieldRkey v) = some (u0, g0))
    (hstep1 : (match alookup UNIT_MAP g0 with
               | some u => env.convert (val, u0, g0) u
               | Option.none => some (val, u0, g0)) = some vt1)
    (hmin : env.convert vt1 "minute" = some (PyVal.num m, u1, g1))
    (hg1 : g1 ≠ "group_time")
    (hfstr : v.fstr ≠ "HH:MM") :
    resolveField env rm v =
      (if 65 < m then Option.none
       else if 60 < m then env.format v.fstr (PyVal.num 60)
       else env.format v.fstr (PyVal.num m)) := by
  simp only [resolveField, hval, hug, hstep1, hmin, hk]
  by_cases h65 : 65 < m
  · simp [h65, hmin]
  · by_cases h60 : 60 < m
    · simp [h65, h60, hg1, hfstr, hmin]
    · simp [h65, h60, hg1, hfstr, hmin]

/-- C8: after conversion to minutes, an hourly sunshine duration above 65
minutes is an error and serializes as the placeholder, a value in the
interval from 60 exclusive to 65 inclusive is silently replaced by
exactly 60, and a value of at most 60 passes through unchanged. -/
theorem sunshine_clamp (env : Env) (rm : Record) (v : FieldSpec)
    (val : PyVal) (u0 g0 : String) (vt1 : PyVal × String × String)
    (m : ℚ) (u1 g1 : String)
    (hk : v.key = "SOD1H_")
    (hval : alookup rm (fieldRkey v) = some val)
    (hnn : val ≠ PyVal.none)
    (hug : env.unitOf rm (fieldRkey v) = some (u0, g0))
    (hstep1 : (match alookup UNIT_MAP g0 with
               | some u => env.convert (val, u0, g0) u
               | Option.none => some (val, u0, g0)) = some vt1)
    (hmin : env.convert vt1 "minute" = some (PyVal.num m, u1, g1))
    (hg1 : g1 ≠ "group_time")
    (hfstr : v.fstr ≠ "HH:MM") :
    (65 < m → fieldToken env rm v = "--") ∧
    (60 < m → m ≤ 65 →
      fieldToken env rm v =
        (match env.format v.fstr (PyVal.num 60) with
         | some s => s
         | Option.none => "--")) ∧
    (m ≤ 60 →
      fieldToken env rm v =
        (match env.format v.fstr (PyVal.num m) with
         | some s => s
         | Option.none => "--")) := by
  have hr := resolveField_sod1h hk hval hug hstep1 hmin hg1 hfstr
  refine ⟨?_, ?_, ?_⟩
  · intro h65
    apply fieldToken_of_resolve_none
    rw [hr, if_pos h65]
  · intro h60 h65
    have heq : resolveField env rm v = env.format v.fstr (PyVal.num 60) := by
      rw [hr, if_neg (not_lt.mpr h65), if_pos h60]
    cases hf : env.format v.fstr (PyVal.num 60) with
    | none => exact fieldToken_of_resolve_none (heq.trans hf)
    | some s => exact fieldToken_of_resolve_some hval hnn (heq.trans hf)
  · intro h60
    have heq : resolveField env rm v = env.format v.fstr (PyVal.num m) := by
      rw [hr, if_neg (not_lt.mpr (h60.trans (by norm_num))), if_neg (not_lt.mpr h60)]
    cases hf : env.format v.fstr (PyVal.num m) with
    | none => exact fieldToken_of_resolve_none (heq.trans hf)
    | some s => exact fieldToken_of_resolve_some hval hnn (heq.trans hf)

/-- C8 witness: 61 minutes serializes as the formatted value 60, 66
minutes as the placeholder, and 50 minutes passes through. -/
theorem sunshine_clamp_witness :
    fieldToken testEnv [("sunshineDur1hSum", PyVal.num 61)]
      ⟨"SOD1H_", "sunshineDur", "1h", "sum", "\x7b:.1f\x7d"⟩ = "val60" ∧
    fieldToken testEnv [("sunshineDur1hSum", PyVal.num 66)]
      ⟨"SOD1H_", "sunshineDur", "1h", "sum", "\x7b:.1f\x7d"⟩ = "--" ∧
    fieldToken testEnv [("sunshineDur1hSum", PyVal.num 50)]
      ⟨"SOD1H_", "sunshineDur", "1h", "sum", "\x7b:.1f\x7d"⟩ = "val50" := by
  have h := sunshine_clamp testEnv [("sunshineDur1hSum", PyVal.num 61)]
    ⟨"SOD1H_", "sunshineDur", "1h", "sum", "\x7b:.1f\x7d"⟩
    (PyVal.num 61) "minute" "group_elapsed"
    (PyVal.num 61, "minute", "group_elapsed") 61 "minute" "group_elapsed"
    rfl (by decide) (by decide) (by decide) (by decide) (by decide)
    (by decide) (by decide)
  refine ⟨?_, by decide, by decide⟩
  rw [h.2.1 (by norm_num) (by norm_num)]
  decide

/-- C9: the producer-side enqueue never grows the queue beyond its
capacity of five; on a full queue the record is dropped and the error
line is logged; below capacity the record is appended. -/
theorem queue_bound_and_drop (q : List Record) (r : Record)
    (h : q.length ≤ 5) :
    ((new_archive_record q r).1.length ≤ 5) ∧
    (q.length = 5 →
      new_archive_record q r = (q, some "Queue is full. Thread died?")) ∧
    (q.length < 5 → new_archive_record q r = (q ++ [r], Option.none)) := by
  unfold new_archive_record queue_put
  by_cases hq : q.length < 5
  · rw [if_pos hq]
    exact ⟨by simp; omega, fun h5 => absurd hq (by omega), fun _ => rfl⟩
  · rw [if_neg hq]
    exact ⟨by simpa using h, fun _ => rfl, fun h5 => absurd h5 hq⟩

/-- C9 witness: a full queue of five drops the sixth record; a queue of
four accepts a fifth. -/
theorem queue_bound_and_drop_witness :
    ((new_archive_record (List.replicate 5 ([] : Record)) []).1.length ≤ 5) ∧
    new_archive_record (List.replicate 5 ([] : Record)) [] =
      (List.replicate 5 ([] : Record), some "Queue is full. Thread died?") ∧
    new_archive_record (List.replicate 4 ([] : Record)) [] =
      (List.replicate 5 ([] : Record), Option.none) := by
  have h := queue_bound_and_drop (List.replicate 5 ([] : Record)) []
    (by decide)
  exact ⟨h.1, h.2.1 (by decide), by decide⟩

/-! ## GTS accumulator lemmas -/

/-- One-step unfolding of the catch-up loop. -/
theorem gtsLoop_eq (sod endTs feb mar : Int) (db : Int → Option ℚ)
    (last : Int) (value : Option ℚ) (date : Option Int) (ct : Nat) :
    gtsLoop sod endTs feb mar db last value date ct =
      if last < sod ∧ last < endTs then
        gtsLoop sod endTs feb mar db (last + 86400)
          (gtsDayStep feb mar last (db last) value date).1
          (gtsDayStep feb mar last (db last) value date).2 (ct + 1)
      else (last, value, date, ct) := by
  rw [gtsLoop]

/-- The loop does nothing once the current day or the cutoff is
reached. -/
theorem gtsLoop_stop (sod endTs feb mar : Int) (db : Int → Option ℚ)
    (last : Int) (value : Option ℚ) (date : Option Int) (ct : Nat)
    (h : ¬(last < sod ∧ last < endTs)) :
    gtsLoop sod endTs feb mar db last value date ct =
      (last, value, date, ct) := by
  rw [gtsLoop_eq, if_neg h]

/-- The loop takes one day step while before the current day and the
cutoff. -/
theorem gtsLoop_go (sod endTs feb mar : Int) (db : Int → Option ℚ)
    (last : Int) (value : Option ℚ) (date : Option Int) (ct : Nat)
    (h : last < sod ∧ last < endTs) :
    gtsLoop sod endTs feb mar db last value date ct =
      gtsLoop sod endTs feb mar db (last + 86400)
        (gtsDayStep feb mar last (db last) value date).1
        (gtsDayStep feb mar last (db last) value date).2 (ct + 1) := by
  rw [gtsLoop_eq, if_pos h]

/-- The loop counter only shifts the count component. -/
theorem gtsLoop_ct_shift (sod endTs feb mar : Int) (db : Int → Option ℚ) :
    ∀ (n : ℕ) (last : Int) (value : Option ℚ) (date : Option Int) (ct : Nat),
      (min sod endTs - last).toNat ≤ n →
      gtsLoop sod endTs feb mar db last value date ct =
        ((gtsLoop sod endTs feb mar db last value date 0).1,
         (gtsLoop sod endTs feb mar db last value date 0).2.1,
         (gtsLoop sod endTs feb mar db last value date 0).2.2.1,
         (gtsLoop sod endTs feb mar db last value date 0).2.2.2 + ct) := by
  intro n
  induction n with
  | zero =>
    intro last value date ct h
    have hs : ¬(last < sod ∧ last < endTs) := by omega
    rw [gtsLoop_stop sod endTs feb mar db last value date ct hs,
      gtsLoop_stop sod endTs feb mar db last value date 0 hs]
    dsimp only
    simp only [Prod.mk.injEq]
    exact ⟨trivial, trivial, trivial, by omega⟩
  | succ n ih =>
    intro last value date ct h
    by_cases hc : last < sod ∧ last < endTs
    · rw [gtsLoop_go sod endTs feb mar db last value date ct hc,
        gtsLoop_go sod endTs feb mar db last value date 0 hc,
        ih (last + 86400) _ _ (ct + 1) (by omega),
        ih (last + 86400) _ _ (0 + 1) (by omega)]
      dsimp only
      simp only [Prod.mk.injEq]
      exact ⟨trivial, trivial, trivial, by omega⟩
    · rw [gtsLoop_stop sod endTs feb mar db last value date ct hc,
        gtsLoop_stop sod endTs feb mar db last value date 0 hc]
      dsimp only
      simp only [Prod.mk.injEq]
      exact ⟨trivial, trivial, trivial, by omega⟩

/-- The final day never goes backwards. -/
theorem gtsLoop_last_ge (sod endTs feb mar : Int) (db : Int → Option ℚ) :
    ∀ (n : ℕ) (last : Int) (value : Option ℚ) (date : Option Int) (ct : Nat),
      (min sod endTs - last).toNat ≤ n →
      last ≤ (gtsLoop sod endTs feb mar db last value date ct).1 := by
  intro n
  induction n with
  | zero =>
    intro last value date ct h
    have hs : ¬(last < sod ∧ last < endTs) := by omega
    rw [gtsLoop_stop sod endTs feb mar db last value date ct hs]
  | succ n ih =>
    intro last value date ct h
    by_cases hc : last < sod ∧ last < endTs
    · rw [gtsLoop_go sod endTs feb mar db last value date ct hc]
      have := ih (last + 86400)
        (gtsDayStep feb mar last (db last) value date).1
        (gtsDayStep feb mar last (db last) value date).2 (ct + 1) (by omega)
      omega
    · rw [gtsLoop_stop sod endTs feb mar db last value date ct hc]
      -- the stopped loop keeps the day unchanged

/-- The final day and the iteration count are data-independent: the day
advances by one calendar day per iteration no matter what the daily
query returns. -/
theorem gtsLoop_last_indep (sod endTs feb mar : Int)
    (db₁ db₂ : Int → Option ℚ) :
    ∀ (n : ℕ) (last : Int) (v₁ v₂ : Option ℚ) (d₁ d₂ : Option Int),
      (min sod endTs - last).toNat ≤ n →
      (gtsLoop sod endTs feb mar db₁ last v₁ d₁ 0).1 =
        (gtsLoop sod endTs feb mar db₂ last v₂ d₂ 0).1 ∧
      (gtsLoop sod endTs feb mar db₁ last v₁ d₁ 0).2.2.2 =
        (gtsLoop sod endTs feb mar db₂ last v₂ d₂ 0).2.2.2 := by
  intro n
  induction n with
  | zero =>
    intro last v₁ v₂ d₁ d₂ h
    have hs : ¬(last < sod ∧ last < endTs) := by omega
    rw [gtsLoop_stop sod endTs feb mar db₁ last v₁ d₁ 0 hs,
      gtsLoop_stop sod endTs feb mar db₂ last v₂ d₂ 0 hs]
    dsimp only
    exact ⟨rfl, rfl⟩
  | succ n ih =>
    intro last v₁ v₂ d₁ d₂ h
    by_cases hc : last < sod ∧ last < endTs
    · rw [gtsLoop_go sod endTs feb mar db₁ last v₁ d₁ 0 hc,
        gtsLoop_go sod endTs feb mar db₂ last v₂ d₂ 0 hc,
        gtsLoop_ct_shift sod endTs feb mar db₁
          ((min sod endTs - (last + 86400)).toNat) (last + 86400) _ _ (0 + 1)
          le_rfl,
        gtsLoop_ct_shift sod endTs feb mar db₂
          ((min sod endTs - (last + 86400)).toNat) (last + 86400) _ _ (0 + 1)
          le_rfl]
      have := ih (last + 86400)
        (gtsDayStep feb mar last (db₁ last) v₁ d₁).1
        (gtsDayStep feb mar last (db₂ last) v₂ d₂).1
        (gtsDayStep feb mar last (db₁ last) v₁ d₁).2
        (gtsDayStep feb mar last (db₂ last) v₂ d₂).2 (by omega)
      dsimp only
      exact ⟨this.1, by omega⟩
    · rw [gtsLoop_stop sod endTs feb mar db₁ last v₁ d₁ 0 hc,
        gtsLoop_stop sod endTs feb mar db₂ last v₂ d₂ 0 hc]
      dsimp only
      exact ⟨rfl, rfl⟩

/-- Running the loop up to an earlier day and then continuing to a later
day gives the same day, sum and crossing day as one direct run. -/
theorem gtsLoop_comp (endTs feb mar : Int) (db : Int → Option ℚ)
    (sod1 sod2 : Int) (h12 : sod1 ≤ sod2) :
    ∀ (n : ℕ) (last : Int) (v : Option ℚ) (d : Option Int),
      (min sod1 endTs - last).toNat ≤ n →
      (gtsLoop sod2 endTs feb mar db
          (gtsLoop sod1 endTs feb mar db last v d 0).1
          (gtsLoop sod1 endTs feb mar db last v d 0).2.1
          (gtsLoop sod1 endTs feb mar db last v d 0).2.2.1 0).1 =
        (gtsLoop sod2 endTs feb mar db last v d 0).1 ∧
      (gtsLoop sod2 endTs feb mar db
          (gtsLoop sod1 endTs feb mar db last v d 0).1
          (gtsLoop sod1 endTs feb mar db last v d 0).2.1
          (gtsLoop sod1 endTs feb mar db last v d 0).2.2.1 0).2.1 =
        (gtsLoop sod2 endTs feb mar db last v d 0).2.1 ∧
      (gtsLoop sod2 endTs feb mar db
          (gtsLoop sod1 endTs feb mar db last v d 0).1
          (gtsLoop sod1 endTs feb mar db last v d 0).2.1
          (gtsLoop sod1 endTs feb mar db last v d 0).2.2.1 0).2.2.1 =
        (gtsLoop sod2 endTs feb mar db last v d 0).2.2.1 := by
  intro n
  induction n with
  | zero =>
    intro last v d h
    have hs1 : ¬(last < sod1 ∧ last < endTs) := by omega
    rw [gtsLoop_stop sod1 endTs feb mar db last v d 0 hs1]
    dsimp only
    exact ⟨rfl, rfl, rfl⟩
  | succ n ih =>
    intro last v d h
    by_cases hc : last < sod1 ∧ last < endTs
    · have hc2 : last < sod2 ∧ last < endTs := ⟨by omega, hc.2⟩
      rw [gtsLoop_go sod1 endTs feb mar db last v d 0 hc,
        gtsLoop_go sod2 endTs feb mar db last v d 0 hc2,
        gtsLoop_ct_shift sod1 endTs feb mar db
          ((min sod1 endTs - (last + 86400)).toNat) (last + 86400) _ _ (0 + 1)
          le_rfl,
        gtsLoop_ct_shift sod2 endTs feb mar db
          ((min sod2 endTs - (last + 86400)).toNat) (last + 86400) _ _ (0 + 1)
          le_rfl]
      dsimp only
      exact ih (last + 86400) _ _ (by omega)
    · rw [gtsLoop_stop sod1 endTs feb mar db last v d 0 hc]
      dsimp only
      exact ⟨rfl, rfl, rfl⟩

/-- With no data for any remaining day the loop changes neither the sum
nor the crossing day. -/
theorem gtsLoop_allnone (sod endTs feb mar : Int) (db : Int → Option ℚ) :
    ∀ (n : ℕ) (last : Int) (v : Option ℚ) (d : Option Int) (ct : Nat),
      (min sod endTs - last).toNat ≤ n →
      (∀ x, last ≤ x → db x = Option.none) →
      (gtsLoop sod endTs feb mar db last v d ct).2.1 = v ∧
      (gtsLoop sod endTs feb mar db last v d ct).2.2.1 = d := by
  intro n
  induction n with
  | zero =>
    intro last v d ct h hnone
    have hs : ¬(last < sod ∧ last < endTs) := by omega
    rw [gtsLoop_stop sod endTs feb mar db last v d ct hs]
    dsimp only
    exact ⟨rfl, rfl⟩
  | succ n ih =>
    intro last v d ct h hnone
    by_cases hc : last < sod ∧ last < endTs
    · rw [gtsLoop_go sod endTs feb mar db last v d ct hc]
      have hstep : gtsDayStep feb mar last (db last) v d = (v, d) := by
        rw [hnone last le_rfl]
        rfl
      rw [hstep]
      dsimp only
      exact ih (last + 86400) v d (ct + 1) (by omega)
        (fun x hx => hnone x (by omega))
    · rw [gtsLoop_stop sod endTs feb mar db last v d ct hc]
      dsimp only
      exact ⟨rfl, rfl⟩

/-- Unfolding of `calc_gts` into the initialization and the loop. -/
theorem calc_gts_eq (sod soy : Int) (db : Int → Option ℚ) (s : GtsState) :
    calc_gts sod soy db s =
      (⟨some (gtsLoop sod ((soy + 2678400) + 2419200 + 7948800)
          (soy + 2678400) ((soy + 2678400) + 2419200) db
          ((gtsInit soy s).last_gts_date.getD soy) (gtsInit soy s).gts_value
          (gtsInit soy s).gts_date 0).1,
        (gtsLoop sod ((soy + 2678400) + 2419200 + 7948800)
          (soy + 2678400) ((soy + 2678400) + 2419200) db
          ((gtsInit soy s).last_gts_date.getD soy) (gtsInit soy s).gts_value
          (gtsInit soy s).gts_date 0).2.1,
        (gtsLoop sod ((soy + 2678400) + 2419200 + 7948800)
          (soy + 2678400) ((soy + 2678400) + 2419200) db
          ((gtsInit soy s).last_gts_date.getD soy) (gtsInit soy s).gts_value
          (gtsInit soy s).gts_date 0).2.2.1⟩,
       (gtsLoop sod ((soy + 2678400) + 2419200 + 7948800)
          (soy + 2678400) ((soy + 2678400) + 2419200) db
          ((gtsInit soy s).last_gts_date.getD soy) (gtsInit soy s).gts_value
          (gtsInit soy s).gts_date 0).2.2.2) := rfl

/-- The initialization never places the last processed day before the
start of the year. -/
theorem gtsInit_last_ge (soy : Int) (s : GtsState) :
    soy ≤ (gtsInit soy s).last_gts_date.getD soy := by
  unfold gtsInit
  cases hsl : s.last_gts_date with
  | none => simp
  | some l =>
    by_cases hl : l < soy
    · simp [hl]
    · simp only [if_neg hl]
      rw [hsl]
      simp
      omega

/-- The initialization on a state with no stored day resets it. -/
theorem gtsInit_none (soy : Int) (s : GtsState)
    (h : s.last_gts_date = Option.none) :
    gtsInit soy s = ⟨some soy, Option.none, Option.none⟩ := by
  unfold gtsInit
  rw [h]

/-- The initialization on a state stored before the start of the year
resets it. -/
theorem gtsInit_reset (soy : Int) (s : GtsState) (l0 : Int)
    (h : s.last_gts_date = some l0) (hlt : l0 < soy) :
    gtsInit soy s = ⟨some soy, Option.none, Option.none⟩ := by
  unfold gtsInit
  rw [h]
  dsimp only
  rw [if_pos hlt]

/-- A state already at or past the start of the year is not
re-initialized. -/
theorem gtsInit_noop (soy l : Int) (v : Option ℚ) (d : Option Int)
    (hl : soy ≤ l) :
    gtsInit soy (⟨some l, v, d⟩ : GtsState) = ⟨some l, v, d⟩ := by
  unfold gtsInit
  dsimp only
  rw [if_neg (not_lt.mpr hl)]

/-- `calc_gts` on a state that needs no initialization. -/
theorem calc_gts_noinit (sod soy : Int) (db : Int → Option ℚ) (l : Int)
    (v : Option ℚ) (d : Option Int) (hl : soy ≤ l) :
    calc_gts sod soy db (⟨some l, v, d⟩ : GtsState) =
      (⟨some (gtsLoop sod ((soy + 2678400) + 2419200 + 7948800)
          (soy + 2678400) ((soy + 2678400) + 2419200) db l v d 0).1,
        (gtsLoop sod ((soy + 2678400) + 2419200 + 7948800)
          (soy + 2678400) ((soy + 2678400) + 2419200) db l v d 0).2.1,
        (gtsLoop sod ((soy + 2678400) + 2419200 + 7948800)
          (soy + 2678400) ((soy + 2678400) + 2419200) db l v d 0).2.2.1⟩,
       (gtsLoop sod ((soy + 2678400) + 2419200 + 7948800)
          (soy + 2678400) ((soy + 2678400) + 2419200) db l v d 0).2.2.2) := by
  rw [calc_gts_eq, gtsInit_noop soy l v d hl]
  rfl

/-- C4 counterexample: a first invocation over a day with no temperature
data leaves the running sum unset, not zero, so the state is not
re-initialized with a running sum of zero. -/
theorem gts_reinit_unset_cex :
    (calc_gts 86400 0 (fun _ => Option.none)
        ⟨Option.none, Option.none, Option.none⟩).1.gts_value =
      Option.none ∧
    (calc_gts 86400 0 (fun _ => Option.none)
        ⟨Option.none, Option.none, Option.none⟩).1.gts_value ≠ some 0 := by
  have h : (calc_gts 86400 0 (fun _ => Option.none)
      ⟨Option.none, Option.none, Option.none⟩).1.gts_value = Option.none := by
    rw [calc_gts_eq]
    dsimp only
    exact (gtsLoop_allnone 86400 ((0 + 2678400) + 2419200 + 7948800)
      (0 + 2678400) ((0 + 2678400) + 2419200) (fun _ => Option.none)
      ((min 86400 ((0 + 2678400) + 2419200 + 7948800) -
        ((gtsInit 0 ⟨Option.none, Option.none, Option.none⟩
          ).last_gts_date.getD 0)).toNat) _ _ _ 0 le_rfl
      (fun _ _ => rfl)).1
  exact ⟨h, by rw [h]; simp⟩

/-- C4 amended: initialization resets the state with the running sum
unset; each replayed day below the early-June cutoff contributes its mean
only when strictly positive, halved before February 1, weighted three
quarters before March 1 and fully afterwards, setting the running sum to
zero the first time a day yields data; the crossing day records the first
day the sum reaches 200; days at or past the cutoff contribute nothing. -/
theorem gts_weighted_step (sod soy : Int) (db : Int → Option ℚ)
    (s : GtsState) (l : Int) (val : Option ℚ) (date : Option Int) :
    ((s.last_gts_date = Option.none ∨
        (∃ l0, s.last_gts_date = some l0 ∧ l0 < soy)) →
      calc_gts sod soy db s =
        calc_gts sod soy db ⟨some soy, Option.none, Option.none⟩) ∧
    (soy ≤ l → soy + 13046400 ≤ l →
      calc_gts sod soy db (⟨some l, val, date⟩ : GtsState) =
        (⟨some l, val, date⟩, 0)) ∧
    (soy ≤ l → l < soy + 13046400 →
      calc_gts (l + 86400) soy db (⟨some l, val, date⟩ : GtsState) =
        (⟨some (l + 86400),
          (match db l with
           | Option.none => val
           | some a =>
             if 0 < a then
               some (val.getD 0 +
                 (if l < soy + 2678400 then a * (1 / 2)
                  else if l < soy + 2678400 + 2419200 then a * (3 / 4)
                  else a))
             else some (val.getD 0)),
          (match db l with
           | Option.none => date
           | some a =>
             if 0 < a then
               (if 200 ≤ val.getD 0 +
                   (if l < soy + 2678400 then a * (1 / 2)
                    else if l < soy + 2678400 + 2419200 then a * (3 / 4)
                    else a) ∧ date = Option.none
                then some l else date)
             else date)⟩, 1)) := by
  refine ⟨?_, ?_, ?_⟩
  · intro hinit
    rw [calc_gts_eq, calc_gts_eq]
    have h1 : gtsInit soy s = ⟨some soy, Option.none, Option.none⟩ := by
      rcases hinit with h | ⟨l0, hl0, hlt⟩
      · exact gtsInit_none soy s h
      · exact gtsInit_reset soy s l0 hl0 hlt
    have h2 : gtsInit soy (⟨some soy, Option.none, Option.none⟩ : GtsState) =
        ⟨some soy, Option.none, Option.none⟩ := gtsInit_noop soy soy _ _ le_rfl
    rw [h1, h2]
  · intro hge hcut
    rw [calc_gts_noinit sod soy db l val date hge,
      gtsLoop_stop _ _ _ _ db l val date 0 (by omega)]
  · intro hge hcut
    rw [calc_gts_noinit (l + 86400) soy db l val date hge,
      gtsLoop_go _ _ _ _ db l val date 0 (by omega),
      gtsLoop_stop _ _ _ _ db (l + 86400) _ _ 1 (by omega)]
    dsimp only
    cases hdb : db l with
    | none =>
      simp [gtsDayStep, hdb]
    | some a =>
      by_cases ha : 0 < a
      · simp [gtsDayStep, hdb, ha]
      · simp [gtsDayStep, hdb, ha]

/-- C4 witness: on January 1 a mean of ten degrees is halved and added to
the fresh sum; a day without data leaves the sum untouched. -/
theorem gts_weighted_step_witness :
    calc_gts (0 + 86400) 0 gtsDb2
        (⟨some 0, Option.none, Option.none⟩ : GtsState) =
      (⟨some (0 + 86400), some 5, Option.none⟩, 1) ∧
    calc_gts (0 + 86400) 0 (fun _ => Option.none)
        (⟨some 0, some 3, Option.none⟩ : GtsState) =
      (⟨some (0 + 86400), some 3, Option.none⟩, 1) := by
  constructor
  · rw [(gts_weighted_step (0 + 86400) 0 gtsDb2
      ⟨some 0, Option.none, Option.none⟩ 0 Option.none Option.none).2.2
      (by norm_num) (by norm_num)]
    norm_num [gtsDb2]
  · rw [(gts_weighted_step (0 + 86400) 0 (fun _ => Option.none)
      ⟨some 0, some 3, Option.none⟩ 0 (some 3) Option.none).2.2
      (by norm_num) (by norm_num)]

/-- C5: the catch-up loop advances the last processed day and issues one
query per day independently of the data returned, and one catch-up
invocation after a gap produces exactly the state that one invocation per
day would have produced. -/
theorem gts_catchup_convergence (sod sod1 sod2 soy : Int)
    (db db₁ db₂ : Int → Option ℚ) (s : GtsState) (h12 : sod1 ≤ sod2) :
    ((calc_gts sod soy db₁ s).1.last_gts_date =
        (calc_gts sod soy db₂ s).1.last_gts_date ∧
      (calc_gts sod soy db₁ s).2 = (calc_gts sod soy db₂ s).2) ∧
    (calc_gts sod2 soy db (calc_gts sod1 soy db s).1).1 =
      (calc_gts sod2 soy db s).1 := by
  constructor
  · have h := gtsLoop_last_indep sod ((soy + 2678400) + 2419200 + 7948800)
      (soy + 2678400) ((soy + 2678400) + 2419200) db₁ db₂
      ((min sod ((soy + 2678400) + 2419200 + 7948800) -
        (gtsInit soy s).last_gts_date.getD soy).toNat)
      ((gtsInit soy s).last_gts_date.getD soy)
      (gtsInit soy s).gts_value (gtsInit soy s).gts_value
      (gtsInit soy s).gts_date (gtsInit soy s).gts_date le_rfl
    rw [calc_gts_eq sod soy db₁ s, calc_gts_eq sod soy db₂ s]
    exact ⟨congrArg some h.1, h.2⟩
  · have hge : soy ≤ (gtsLoop sod1 ((soy + 2678400) + 2419200 + 7948800)
        (soy + 2678400) ((soy + 2678400) + 2419200) db
        ((gtsInit soy s).last_gts_date.getD soy) (gtsInit soy s).gts_value
        (gtsInit soy s).gts_date 0).1 :=
      le_trans (gtsInit_last_ge soy s)
        (gtsLoop_last_ge sod1 ((soy + 2678400) + 2419200 + 7948800)
          (soy + 2678400) ((soy + 2678400) + 2419200) db
          ((min sod1 ((soy + 2678400) + 2419200 + 7948800) -
            (gtsInit soy s).last_gts_date.getD soy).toNat)
          ((gtsInit soy s).last_gts_date.getD soy)
          (gtsInit soy s).gts_value (gtsInit soy s).gts_date 0 le_rfl)
    have hcomp := gtsLoop_comp ((soy + 2678400) + 2419200 + 7948800)
      (soy + 2678400) ((soy + 2678400) + 2419200) db sod1 sod2 h12
      ((min sod1 ((soy + 2678400) + 2419200 + 7948800) -
        (gtsInit soy s).last_gts_date.getD soy).toNat)
      ((gtsInit soy s).last_gts_date.getD soy)
      (gtsInit soy s).gts_value (gtsInit soy s).gts_date le_rfl
    rw [calc_gts_eq sod1 soy db s]
    dsimp only
    rw [calc_gts_noinit sod2 soy db
      (gtsLoop sod1 ((soy + 2678400) + 2419200 + 7948800)
        (soy + 2678400) ((soy + 2678400) + 2419200) db
        ((gtsInit soy s).last_gts_date.getD soy) (gtsInit soy s).gts_value
        (gtsInit soy s).gts_date 0).1
      (gtsLoop sod1 ((soy + 2678400) + 2419200 + 7948800)
        (soy + 2678400) ((soy + 2678400) + 2419200) db
        ((gtsInit soy s).last_gts_date.getD soy) (gtsInit soy s).gts_value
        (gtsInit soy s).gts_date 0).2.1
      (gtsLoop sod1 ((soy + 2678400) + 2419200 + 7948800)
        (soy + 2678400) ((soy + 2678400) + 2419200) db
        ((gtsInit soy s).last_gts_date.getD soy) (gtsInit soy s).gts_value
        (gtsInit soy s).gts_date 0).2.2.1 hge]
    rw [calc_gts_eq sod2 soy db s]
    dsimp only
    rw [hcomp.1, hcomp.2.1, hcomp.2.2]

/-- C5 witness: replaying two days at once matches the day-by-day result,
and the two-day sum is fifteen (five plus ten with early-season halving). -/
theorem gts_catchup_convergence_witness :
    (calc_gts 172800 0 gtsDb2
        (calc_gts 86400 0 gtsDb2
          ⟨Option.none, Option.none, Option.none⟩).1).1 =
      (calc_gts 172800 0 gtsDb2
        ⟨Option.none, Option.none, Option.none⟩).1 ∧
    (calc_gts 172800 0 gtsDb2
        ⟨Option.none, Option.none, Option.none⟩).1 =
      ⟨some 172800, some 15, Option.none⟩ := by
  refine ⟨(gts_catchup_convergence 0 86400 172800 0 gtsDb2 gtsDb2 gtsDb2
    ⟨Option.none, Option.none, Option.none⟩ (by norm_num)).2, ?_⟩
  rw [calc_gts_eq, gtsInit_none 0 _ rfl]
  dsimp only
  rw [gtsLoop_eq]
  norm_num [gtsDayStep, gtsDb2]
  rw [gtsLoop_eq]
  norm_num [gtsDayStep, gtsDb2]
  rw [gtsLoop_eq]
  norm_num

/-- On a replay where the only day with data has a non-positive mean, the
running sum becomes zero and the crossing day stays unset. -/
theorem gtsLoop_single_nonpos (sod endTs feb mar : Int)
    (db : Int → Option ℚ) (d0 : Int) (a : ℚ) (ha : a ≤ 0)
    (hdb : db d0 = some a) (honly : ∀ x, x ≠ d0 → db x = Option.none)
    (hsod : d0 < sod) (hend : d0 < endTs) :
    ∀ (k : ℕ) (last : Int), d0 = last + 86400 * k →
      (gtsLoop sod endTs feb mar db last Option.none Option.none 0).2.1 =
        some 0 ∧
      (gtsLoop sod endTs feb mar db last Option.none Option.none 0).2.2.1 =
        Option.none := by
  intro k
  induction k with
  | zero =>
    intro last heq
    have hld : last = d0 := by omega
    subst hld
    rw [gtsLoop_go sod endTs feb mar db last Option.none Option.none 0
      ⟨hsod, hend⟩]
    have hstep : gtsDayStep feb mar last (db last) Option.none Option.none =
        (some 0, Option.none) := by
      rw [hdb]
      simp [gtsDayStep, not_lt.mpr ha]
    rw [hstep]
    dsimp only
    exact gtsLoop_allnone sod endTs feb mar db
      ((min sod endTs - (last + 86400)).toNat) (last + 86400) (some 0)
      Option.none 1 le_rfl (fun x hx => honly x (by omega))
  | succ k ih =>
    intro last heq
    have hlt : last < d0 := by omega
    rw [gtsLoop_go sod endTs feb mar db last Option.none Option.none 0
      ⟨by omega, by omega⟩]
    have hstep : gtsDayStep feb mar last (db last) Option.none Option.none =
        (Option.none, Option.none) := by
      rw [honly last (by omega)]
      rfl
    rw [hstep]
    dsimp only
    rw [gtsLoop_ct_shift sod endTs feb mar db
      ((min sod endTs - (last + 86400)).toNat) (last + 86400) Option.none
      Option.none (0 + 1) le_rfl]
    dsimp only
    exact ih (last + 86400) (by omega)

/-- A field with no special-case key resolves to its formatted value. -/
theorem resolveField_plain {env : Env} {rm : Record} {v : FieldSpec}
    {val : PyVal} {u0 g0 : String} {s : String}
    (hk1 : v.key ≠ "SOD1D_") (hk2 : v.key ≠ "SOD1M_")
    (hk3 : v.key ≠ "SOD1A_") (hk4 : v.key ≠ "SOD1H_")
    (hval : alookup rm (fieldRkey v) = some val)
    (hug : env.unitOf rm (fieldRkey v) = some (u0, g0))
    (hum : alookup UNIT_MAP g0 = Option.none)
    (hgt : g0 ≠ "group_time")
    (hfstr : v.fstr ≠ "HH:MM")
    (hfmt : env.format v.fstr val = some s) :
    resolveField env rm v = some s := by
  simp only [resolveField, hval, hug, hum]
  rw [if_neg (by simp [hk1, hk2, hk3])]
  dsimp only
  rw [if_neg hk4]
  dsimp only
  rw [if_neg hgt, if_neg hfstr]
  exact hfmt

/-- C10: if no replayed day yields data the running sum stays unset, the
GTS field is never added and GRASUM serializes as the placeholder; as
soon as one day yields data, even with a non-positive mean, the sum
becomes the number zero and GRASUM serializes as a formatted value. -/
theorem gts_unset_until_data (env : Env) (cal : CalEnv) (dbm : DbManager)
    (s : GtsState) (dd : Record) (t : ℚ) (d0 : Int) (a : ℚ) (k : ℕ)
    (pv : PyVal) (u0 g0 : String) (str : String) :
    ((s.gts_value = Option.none → s.gts_date = Option.none →
      (∀ x, dbm.gtsAvg x = Option.none) →
      alookup dd "GTS" = Option.none →
      (calc_gts (cal.startOfDay t) (cal.yearStart t) dbm.gtsAvg
          s).1.gts_value = Option.none ∧
      alookup (step_gts cal dbm t s dd).2.1 "GTS" = Option.none ∧
      fieldToken env (step_gts cal dbm t s dd).2.1
        ⟨"GRASUM", "GTS", "", "", "\x7b:.1f\x7d"⟩ = "--")) ∧
    (s.last_gts_date = Option.none →
      dbm.gtsAvg d0 = some a → a ≤ 0 →
      (∀ x, x ≠ d0 → dbm.gtsAvg x = Option.none) →
      d0 = cal.yearStart t + 86400 * k →
      d0 < cal.startOfDay t →
      d0 < cal.yearStart t + 13046400 →
      alookup dd "GTS" = Option.none →
      cal.convertStd dd (PyVal.num 0, "degree_C_day", "group_degree_day") =
        some pv →
      pv ≠ PyVal.none →
      env.unitOf (rinsert dd "GTS" pv) "GTS" = some (u0, g0) →
      alookup UNIT_MAP g0 = Option.none →
      g0 ≠ "group_time" →
      env.format "\x7b:.1f\x7d" pv = some str →
      str ≠ "--" →
      (calc_gts (cal.startOfDay t) (cal.yearStart t) dbm.gtsAvg
          s).1.gts_value = some 0 ∧
      alookup (step_gts cal dbm t s dd).2.1 "GTS" = some pv ∧
      fieldToken env (step_gts cal dbm t s dd).2.1
        ⟨"GRASUM", "GTS", "", "", "\x7b:.1f\x7d"⟩ = str ∧
      fieldToken env (step_gts cal dbm t s dd).2.1
        ⟨"GRASUM", "GTS", "", "", "\x7b:.1f\x7d"⟩ ≠ "--") := by
  have hrk : fieldRkey ⟨"GRASUM", "GTS", "", "", "\x7b:.1f\x7d"⟩ = "GTS" :=
    rfl
  constructor
  · intro hv hd hall hGTS
    have hval : (calc_gts (cal.startOfDay t) (cal.yearStart t) dbm.gtsAvg
        s).1.gts_value = Option.none ∧
        (calc_gts (cal.startOfDay t) (cal.yearStart t) dbm.gtsAvg
          s).1.gts_date = Option.none := by
      rw [calc_gts_eq]
      dsimp only
      have hvd : (gtsInit (cal.yearStart t) s).gts_value = Option.none ∧
          (gtsInit (cal.yearStart t) s).gts_date = Option.none := by
        unfold gtsInit
        cases hsl : s.last_gts_date with
        | none => exact ⟨rfl, rfl⟩
        | some l =>
          by_cases hl : l < cal.yearStart t
          · simp [hl]
          · simp [hl, hv, hd]
      have h := gtsLoop_allnone (cal.startOfDay t)
        ((cal.yearStart t + 2678400) + 2419200 + 7948800)
        (cal.yearStart t + 2678400) ((cal.yearStart t + 2678400) + 2419200)
        dbm.gtsAvg
        ((min (cal.startOfDay t)
          ((cal.yearStart t + 2678400) + 2419200 + 7948800) -
          (gtsInit (cal.yearStart t) s).last_gts_date.getD
            (cal.yearStart t)).toNat)
        ((gtsInit (cal.yearStart t) s).last_gts_date.getD (cal.yearStart t))
        (gtsInit (cal.yearStart t) s).gts_value
        (gtsInit (cal.yearStart t) s).gts_date 0 le_rfl
        (fun x _ => hall x)
      rw [h.1, h.2, hvd.1, hvd.2]
      exact ⟨rfl, rfl⟩
    have hrec : (step_gts cal dbm t s dd).2.1 = dd := by
      simp only [step_gts]
      rw [if_pos (by rw [hGTS]; rfl)]
      rw [hval.1, hval.2]
    refine ⟨hval.1, ?_, ?_⟩
    · rw [hrec]
      exact hGTS
    · apply fieldToken_of_lookup_none
      rw [hrk, hrec]
      exact hGTS
  · intro hlast hdb ha honly halign hsod hend hGTS hconv hpv hug hum hgt
      hfmt hstr
    have hval : (calc_gts (cal.startOfDay t) (cal.yearStart t) dbm.gtsAvg
        s).1.gts_value = some 0 ∧
        (calc_gts (cal.startOfDay t) (cal.yearStart t) dbm.gtsAvg
          s).1.gts_date = Option.none := by
      rw [calc_gts_eq, gtsInit_none (cal.yearStart t) s hlast]
      dsimp only
      have h := gtsLoop_single_nonpos (cal.startOfDay t)
        ((cal.yearStart t + 2678400) + 2419200 + 7948800)
        (cal.yearStart t + 2678400) ((cal.yearStart t + 2678400) + 2419200)
        dbm.gtsAvg d0 a ha hdb honly hsod (by omega) k (cal.yearStart t)
        halign
      exact ⟨h.1, h.2⟩
    have hrec : (step_gts cal dbm t s dd).2.1 = rinsert dd "GTS" pv := by
      simp only [step_gts]
      rw [if_pos (by rw [hGTS]; rfl)]
      rw [hval.1, hval.2]
      dsimp only
      rw [hconv]
      rfl
    have hlook : alookup (step_gts cal dbm t s dd).2.1 "GTS" = some pv := by
      rw [hrec]
      exact alookup_rinsert_same dd "GTS" pv
    have hres : resolveField env (step_gts cal dbm t s dd).2.1
        ⟨"GRASUM", "GTS", "", "", "\x7b:.1f\x7d"⟩ = some str := by
      apply @resolveField_plain env (step_gts cal dbm t s dd).2.1
        ⟨"GRASUM", "GTS", "", "", "\x7b:.1f\x7d"⟩ pv u0 g0 str
      · decide
      · decide
      · decide
      · decide
      · rw [hrk]
        exact hlook
      · rw [hrk, hrec]
        exact hug
      · exact hum
      · exact hgt
      · decide
      · exact hfmt
    have htok : fieldToken env (step_gts cal dbm t s dd).2.1
        ⟨"GRASUM", "GTS", "", "", "\x7b:.1f\x7d"⟩ = str := by
      apply @fieldToken_of_resolve_some env (step_gts cal dbm t s dd).2.1
        ⟨"GRASUM", "GTS", "", "", "\x7b:.1f\x7d"⟩ pv str
      · rw [hrk]
        exact hlook
      · exact hpv
      · exact hres
    exact ⟨hval.1, hlook, htok, by rw [htok]; exact hstr⟩

/-! ## Storage query and enrichment lemmas -/

/-- `sqlMin` returns a value exactly on a non-empty list. -/
theorem sqlMin_eq_none_iff (l : List ℚ) : sqlMin l = Option.none ↔ l = [] := by
  induction l with
  | nil => simp [sqlMin]
  | cons x xs ih =>
    simp only [sqlMin]
    cases h : sqlMin xs <;> simp

/-- The minimum is a member of the list. -/
theorem sqlMin_mem (l : List ℚ) (m : ℚ) (h : sqlMin l = some m) : m ∈ l := by
  induction l generalizing m with
  | nil => simp [sqlMin] at h
  | cons x xs ih =>
    simp only [sqlMin] at h
    cases h2 : sqlMin xs with
    | none =>
      rw [h2] at h
      injection h with h
      simp [h.symm]
    | some m2 =>
      rw [h2] at h
      injection h with h
      rcases min_cases x m2 with ⟨he, _⟩ | ⟨he, _⟩
      · simp [← h, he]
      · have := ih m2 h2
        rw [← h, he]
        simp [this]

/-- The minimum bounds every member from below. -/
theorem sqlMin_le (l : List ℚ) (m : ℚ) (h : sqlMin l = some m) :
    ∀ x ∈ l, m ≤ x := by
  induction l generalizing m with
  | nil => simp
  | cons x xs ih =>
    intro y hy
    simp only [sqlMin] at h
    cases h2 : sqlMin xs with
    | none =>
      rw [h2] at h
      injection h with h
      have : xs = [] := (sqlMin_eq_none_iff xs).mp h2
      subst this
      simp at hy
      exact le_of_eq (h.symm.trans hy.symm)
    | some m2 =>
      rw [h2] at h
      injection h with h
      rcases List.mem_cons.mp hy with hxy | hxy
      · rw [← h, hxy]
        exact min_le_left x m2
      · calc m = min x m2 := h.symm
          _ ≤ m2 := min_le_right x m2
          _ ≤ y := ih m2 h2 y hxy

/-- `sqlMax` returns a value exactly on a non-empty list. -/
theorem sqlMax_eq_none_iff (l : List ℚ) : sqlMax l = Option.none ↔ l = [] := by
  induction l with
  | nil => simp [sqlMax]
  | cons x xs ih =>
    simp only [sqlMax]
    cases h : sqlMax xs <;> simp

/-- The maximum is a member of the list. -/
theorem sqlMax_mem (l : List ℚ) (m : ℚ) (h : sqlMax l = some m) : m ∈ l := by
  induction l generalizing m with
  | nil => simp [sqlMax] at h
  | cons x xs ih =>
    simp only [sqlMax] at h
    cases h2 : sqlMax xs with
    | none =>
      rw [h2] at h
      injection h with h
      simp [h.symm]
    | some m2 =>
      rw [h2] at h
      injection h with h
      rcases max_cases x m2 with ⟨he, _⟩ | ⟨he, _⟩
      · simp [← h, he]
      · have := ih m2 h2
        rw [← h, he]
        simp [this]

/-- The maximum bounds every member from above. -/
theorem sqlMax_ge (l : List ℚ) (m : ℚ) (h : sqlMax l = some m) :
    ∀ x ∈ l, x ≤ m := by
  induction l generalizing m with
  | nil => simp
  | cons x xs ih =>
    intro y hy
    simp only [sqlMax] at h
    cases h2 : sqlMax xs with
    | none =>
      rw [h2] at h
      injection h with h
      have : xs = [] := (sqlMax_eq_none_iff xs).mp h2
      subst this
      simp at hy
      exact le_of_eq (hy.trans h)
    | some m2 =>
      rw [h2] at h
      injection h with h
      rcases List.mem_cons.mp hy with hxy | hxy
      · rw [← h, hxy]
        exact le_max_left x m2
      · calc y ≤ m2 := ih m2 h2 y hxy
          _ ≤ max x m2 := le_max_right x m2
          _ = m := h

/-- Dict assignment followed by a read, as one conditional. -/
theorem alookup_rinsert (r : Record) (k k' : String) (v : PyVal) :
    alookup (rinsert r k v) k' =
      if k = k' then some v else alookup r k' := rfl

/-- A read distributes over a conditional record. -/
theorem alookup_ite (c : Prop) [Decidable c] (r1 r2 : Record) (k : String) :
    alookup (if c then r1 else r2) k =
      if c then alookup r1 k else alookup r2 k := by
  split <;> rfl

/-- The day extrema step touches only its four fields. -/
theorem step_dayminmax_alookup (db : DbManager) (sod : Int) (t : ℚ)
    (dd : Record) (k : String) (h1 : "outTempDayMin" ≠ k)
    (h2 : "outTempDayMax" ≠ k) (h3 : "windchillDayMin" ≠ k)
    (h4 : "UVDayMax" ≠ k) :
    alookup (step_dayminmax db sod t dd).1 k = alookup dd k := by
  unfold step_dayminmax
  repeat' split
  all_goals simp [alookup_ite, alookup_rinsert, h1, h2, h3, h4]

/-- The baseline step touches only its five fields. -/
theorem step_baseline_alookup (db : DbManager) (ago : Option ℚ) (t : ℚ)
    (dd : Record) (k : String) (h1 : "outTemp1h" ≠ k)
    (h2 : "barometer1h" ≠ k) (h3 : "pressure1h" ≠ k)
    (h4 : "windchill1hMin" ≠ k) (h5 : "radiation1hMax" ≠ k) :
    alookup (step_baseline db ago t dd).1 k = alookup dd k := by
  unfold step_baseline
  repeat' split
  all_goals simp [alookup_ite, alookup_rinsert, h1, h2, h3, h4, h5]

/-- The last-rain step touches only its field. -/
theorem step_lastrain_alookup (db : DbManager) (t : ℚ) (dd : Record)
    (k : String) (h : "lastRainDate" ≠ k) :
    alookup (step_lastrain db t dd).1 k = alookup dd k := by
  unfold step_lastrain
  repeat' split
  all_goals simp [alookup_ite, alookup_rinsert, h]

/-- The radiation-integral step touches only its field. -/
theorem step_radint_alookup (db : DbManager) (span : ℚ × ℚ) (dd : Record)
    (k : String) (h : "radiationYesterdayIntegral" ≠ k) :
    alookup (step_radint db span dd).1 k = alookup dd k := by
  unfold step_radint calc_radiation_integral
  repeat' split
  all_goals simp [alookup_ite, alookup_rinsert, h]

/-- The GTS step touches only its two fields. -/
theorem step_gts_alookup (cal : CalEnv) (db : DbManager) (t : ℚ)
    (s : GtsState) (dd : Record) (k : String) (h1 : "GTS" ≠ k)
    (h2 : "GTSdate" ≠ k) :
    alookup (step_gts cal db t s dd).2.1 k = alookup dd k := by
  simp only [step_gts]
  split
  · generalize calc_gts (cal.startOfDay t) (cal.yearStart t) db.gtsAvg s = R
    set xv := R.1.gts_value with hxv
    set xd := R.1.gts_date with hxd
    clear_value xv xd
    cases xv with
    | none =>
      cases xd with
      | none => rfl
      | some d => simp [alookup_rinsert, h2]
    | some v =>
      dsimp only
      set cv := cal.convertStd dd
        (PyVal.num v, "degree_C_day", "group_degree_day") with hcv
      clear_value cv
      cases cv with
      | none => rfl
      | some pv =>
        cases xd with
        | none => simp [alookup_rinsert, h1]
        | some d => simp [alookup_rinsert, h1, h2]
  · rfl

/-- The month-average step touches only its field. -/
theorem step_monthavg_alookup (cal : CalEnv) (db : DbManager)
    (span : ℚ × ℚ) (dd : Record) (k : String)
    (h : "outTempMonthAvg" ≠ k) :
    alookup (step_monthavg cal db span dd).1 k = alookup dd k := by
  unfold step_monthavg
  repeat' split
  all_goals simp [alookup_ite, alookup_rinsert, h]

/-- A guarded aggregate assignment touches only its field. -/
theorem runAggStep_alookup (cal : CalEnv) (db : DbManager)
    (st : Record × Nat × Bool) (key obs : String) (span : ℚ × ℚ)
    (op : String) (k : String) (h : key ≠ k) :
    alookup (runAggStep cal db st key obs span op).1 k = alookup st.1 k := by
  unfold runAggStep
  repeat' split
  all_goals simp [alookup_ite, alookup_rinsert, h]

/-- The rain block touches only its five fields. -/
theorem step_rain_alookup (cal : CalEnv) (db : DbManager)
    (sp1 sp2 sp3 sp4 sp5 : ℚ × ℚ) (dd : Record) (k : String)
    (h1 : "yesterdayRain" ≠ k) (h2 : "monthRain" ≠ k)
    (h3 : "yearRain" ≠ k) (h4 : "rain3" ≠ k) (h5 : "rain10m" ≠ k) :
    alookup (step_rain cal db sp1 sp2 sp3 sp4 sp5 dd).1 k = alookup dd k := by
  simp only [step_rain]
  rw [runAggStep_alookup cal db _ _ _ _ _ k h5,
    runAggStep_alookup cal db _ _ _ _ _ k h4,
    runAggStep_alookup cal db _ _ _ _ _ k h3,
    runAggStep_alookup cal db _ _ _ _ _ k h2,
    runAggStep_alookup cal db _ _ _ _ _ k h1]

/-- The evapotranspiration block touches only its three fields. -/
theorem step_et_alookup (cal : CalEnv) (db : DbManager)
    (sp1 sp2 sp3 : ℚ × ℚ) (dd : Record) (k : String)
    (h1 : "dayET" ≠ k) (h2 : "monthET" ≠ k) (h3 : "yearET" ≠ k) :
    alookup (step_et cal db sp1 sp2 sp3 dd).1 k = alookup dd k := by
  simp only [step_et]
  rw [runAggStep_alookup cal db _ _ _ _ _ k h3,
    runAggStep_alookup cal db _ _ _ _ _ k h2,
    runAggStep_alookup cal db _ _ _ _ _ k h1]

/-- One aggregation-loop iteration touches only its aggregate field. -/
theorem aggLoopStep_alookup (cal : CalEnv) (db : DbManager)
    (s1 s3 s24 sD sY sM sYr : ℚ × ℚ) (st : Record × Nat) (v : FieldSpec)
    (k : String) (hd : v.tim = "" ∨ v.agg = "" ∨
      v.obs ++ v.tim ++ pyCapitalize v.agg ≠ k) :
    alookup (aggLoopStep cal db s1 s3 s24 sD sY sM sYr st v).1 k =
      alookup st.1 k := by
  unfold aggLoopStep
  by_cases hc : v.tim ≠ "" ∧ v.agg ≠ "" ∧
      (alookup st.1 (v.obs ++ v.tim ++ pyCapitalize v.agg)).isNone = true
  · have h : v.obs ++ v.tim ++ pyCapitalize v.agg ≠ k := by
      rcases hd with h | h | h
      · exact absurd h hc.1
      · exact absurd h hc.2.1
      · exact h
    rw [if_pos hc]
    have key : ∀ sp : ℚ × ℚ,
        alookup (match db.agg v.obs sp (pyLower v.agg) with
          | some vt =>
            match cal.convertStd st.1 vt with
            | some pv =>
              (rinsert st.1 (v.obs ++ v.tim ++ pyCapitalize v.agg) pv,
               st.2 + 1)
            | Option.none => (st.1, st.2 + 1)
          | Option.none => (st.1, st.2 + 1)).1 k = alookup st.1 k := by
      intro sp
      cases db.agg v.obs sp (pyLower v.agg) with
      | none => rfl
      | some vt =>
        dsimp only
        cases cal.convertStd st.1 vt with
        | none => rfl
        | some pv => simp [alookup_rinsert, h]
    repeat' split
    all_goals first
      | rfl
      | exact key _
  · rw [if_neg hc]

/-- The aggregation loop touches only the aggregate fields of the table. -/
theorem aggLoop_fold_alookup (cal : CalEnv) (db : DbManager)
    (s1 s3 s24 sD sY sM sYr : ℚ × ℚ) (dm : List FieldSpec) :
    ∀ (st : Record × Nat) (k : String),
      (∀ v ∈ dm, v.tim = "" ∨ v.agg = "" ∨
        v.obs ++ v.tim ++ pyCapitalize v.agg ≠ k) →
      alookup (dm.foldl (aggLoopStep cal db s1 s3 s24 sD sY sM sYr) st).1 k =
        alookup st.1 k := by
  induction dm with
  | nil => intro st k h; rfl
  | cons v vs ih =>
    intro st k h
    rw [List.foldl_cons,
      ih (aggLoopStep cal db s1 s3 s24 sD sY sM sYr st v) k
        (fun w hw => h w (List.mem_cons_of_mem v hw)),
      aggLoopStep_alookup cal db s1 s3 s24 sD sY sM sYr st v k
        (h v (List.mem_cons_self v vs))]

/-- When the first window holds a record the lookup takes it and issues
one query. -/
theorem ago1_first_window (db : DbManager) (t : ℚ) (x : ℚ)
    (h : sqlMin (db.dateTimes.filter
      (fun y => t - 3600 ≤ y ∧ y ≤ t - 3300)) = some x) :
    ago1_lookup db t = some x ∧ ago1_count db t = 1 := by
  unfold ago1_lookup ago1_count
  rw [h]
  exact ⟨rfl, rfl⟩

/-- When the first window is empty the lookup falls back to the second
query. -/
theorem ago1_fallback (db : DbManager) (t : ℚ)
    (h : sqlMin (db.dateTimes.filter
      (fun y => t - 3600 ≤ y ∧ y ≤ t - 3300)) = Option.none) :
    ago1_lookup db t = sqlMax (db.dateTimes.filter
      (fun y => t - 3900 ≤ y ∧ y ≤ t - 3600)) ∧ ago1_count db t = 2 := by
  unfold ago1_lookup ago1_count
  rw [h]
  exact ⟨rfl, rfl⟩

/-- The day extrema block skips when the field is present. -/
theorem step_dayminmax_skip (db : DbManager) (sod : Int) (t : ℚ)
    (dd : Record) (h : (alookup dd "outTempDayMax").isNone = false) :
    step_dayminmax db sod t dd = (dd, 0) := by
  unfold step_dayminmax
  rw [if_neg (by simp [h])]

/-- The baseline block issues its two queries but writes nothing when all
five fields are present. -/
theorem step_baseline_skip (db : DbManager) (a t : ℚ) (dd : Record)
    (h1 : (alookup dd "outTemp1h").isNone = false)
    (h2 : (alookup dd "barometer1h").isNone = false)
    (h3 : (alookup dd "pressure1h").isNone = false)
    (h4 : (alookup dd "windchill1hMin").isNone = false)
    (h5 : (alookup dd "radiation1hMax").isNone = false) :
    step_baseline db (some a) t dd = (dd, 2) := by
  simp only [step_baseline]
  cases db.row3 a t with
  | none =>
    cases db.wcRad a t with
    | none => rfl
    | some r => simp [h4, h5]
  | some r =>
    cases db.wcRad a t with
    | none => simp [h1, h2, h3]
    | some r2 => simp [h1, h2, h3, h4, h5]

/-- The last-rain block issues its query but writes nothing when the
field is present. -/
theorem step_lastrain_skip (db : DbManager) (t : ℚ) (dd : Record)
    (h : (alookup dd "lastRainDate").isNone = false) :
    step_lastrain db t dd = (dd, 1) := by
  unfold step_lastrain
  cases db.lastRain t <;> simp [h]

/-- With a consistent unit pair the radiation-integral block overwrites
its field unconditionally. -/
theorem step_radint_write (db : DbManager) (span : ℚ × ℚ) (dd : Record)
    (rv ru : PyVal) (h : db.radInt span.1 span.2 = some (rv, ru, ru)) :
    step_radint db span dd =
      (rinsert dd "radiationYesterdayIntegral" rv, 1) := by
  unfold step_radint calc_radiation_integral
  rw [h]
  simp

/-- The GTS block skips entirely when the field is present. -/
theorem step_gts_skip (cal : CalEnv) (db : DbManager) (t : ℚ)
    (s : GtsState) (dd : Record)
    (h : (alookup dd "GTS").isNone = false) :
    step_gts cal db t s dd = (s, dd, 0) := by
  simp only [step_gts]
  rw [if_neg (by simp [h])]

/-- The month-average block overwrites its field unconditionally. -/
theorem step_monthavg_write (cal : CalEnv) (db : DbManager)
    (span : ℚ × ℚ) (dd : Record) (vt : PyVal × String × String)
    (pv : PyVal) (hagg : db.agg "outTemp" span "avg" = some vt)
    (hconv : cal.convertStd dd vt = some pv) :
    step_monthavg cal db span dd = (rinsert dd "outTempMonthAvg" pv, 1) := by
  unfold step_monthavg
  rw [hagg]
  dsimp only
  rw [hconv]

/-- A guarded aggregate assignment skips when the field is present. -/
theorem runAggStep_skip (cal : CalEnv) (db : DbManager)
    (st : Record × Nat × Bool) (key obs : String) (span : ℚ × ℚ)
    (op : String) (h : (alookup st.1 key).isNone = false) :
    runAggStep cal db st key obs span op = st := by
  unfold runAggStep
  split
  · rfl
  · rw [if_pos]
    cases hv : alookup st.1 key with
    | none => rw [hv] at h; simp at h
    | some v => simp [hv]

/-- The rain block issues no query when all five fields are present. -/
theorem step_rain_skip (cal : CalEnv) (db : DbManager)
    (sp1 sp2 sp3 sp4 sp5 : ℚ × ℚ) (dd : Record)
    (h1 : (alookup dd "yesterdayRain").isNone = false)
    (h2 : (alookup dd "monthRain").isNone = false)
    (h3 : (alookup dd "yearRain").isNone = false)
    (h4 : (alookup dd "rain3").isNone = false)
    (h5 : (alookup dd "rain10m").isNone = false) :
    step_rain cal db sp1 sp2 sp3 sp4 sp5 dd = (dd, 0) := by
  simp only [step_rain]
  rw [runAggStep_skip cal db (dd, 0, false) "yesterdayRain" "rain" sp1
      "sum" h1,
    runAggStep_skip cal db (dd, 0, false) "monthRain" "rain" sp2 "sum" h2,
    runAggStep_skip cal db (dd, 0, false) "yearRain" "rain" sp3 "sum" h3,
    runAggStep_skip cal db (dd, 0, false) "rain3" "rain" sp4 "sum" h4,
    runAggStep_skip cal db (dd, 0, false) "rain10m" "rain" sp5 "sum" h5]

/-- The evapotranspiration block issues no query when all three fields
are present. -/
theorem step_et_skip (cal : CalEnv) (db : DbManager)
    (sp1 sp2 sp3 : ℚ × ℚ) (dd : Record)
    (h1 : (alookup dd "dayET").isNone = false)
    (h2 : (alookup dd "monthET").isNone = false)
    (h3 : (alookup dd "yearET").isNone = false) :
    step_et cal db sp1 sp2 sp3 dd = (dd, 0) := by
  simp only [step_et]
  rw [runAggStep_skip cal db (dd, 0, false) "dayET" "ET" sp1 "sum" h1,
    runAggStep_skip cal db (dd, 0, false) "monthET" "ET" sp2 "sum" h2,
    runAggStep_skip cal db (dd, 0, false) "yearET" "ET" sp3 "sum" h3]

/-- An aggregation-loop iteration skips on an entry with no window, no
operator, or an already-present aggregate field. -/
theorem aggLoopStep_skip (cal : CalEnv) (db : DbManager)
    (s1 s3 s24 sD sY sM sYr : ℚ × ℚ) (st : Record × Nat) (v : FieldSpec)
    (h : v.tim = "" ∨ v.agg = "" ∨
      (alookup st.1 (v.obs ++ v.tim ++ pyCapitalize v.agg)).isNone = false) :
    aggLoopStep cal db s1 s3 s24 sD sY sM sYr st v = st := by
  unfold aggLoopStep
  rw [if_neg]
  rcases h with h | h | h <;> simp [h]

/-- The aggregation loop leaves the state unchanged when every entry
skips. -/
theorem aggLoop_fold_skip (cal : CalEnv) (db : DbManager)
    (s1 s3 s24 sD sY sM sYr : ℚ × ℚ) (dm : List FieldSpec) :
    ∀ (st : Record × Nat),
      (∀ v ∈ dm, v.tim = "" ∨ v.agg = "" ∨
        (alookup st.1 (v.obs ++ v.tim ++ pyCapitalize v.agg)).isNone =
          false) →
      dm.foldl (aggLoopStep cal db s1 s3 s24 sD sY sM sYr) st = st := by
  induction dm with
  | nil => intro st _; rfl
  | cons v vs ih =>
    intro st h
    rw [List.foldl_cons,
      aggLoopStep_skip cal db s1 s3 s24 sD sY sM sYr st v
        (h v (List.mem_cons_self v vs)),
      ih st (fun w hw => h w (List.mem_cons_of_mem v hw))]

/-- Over the default table, the aggregation loop skips when the eight
windowed aggregate fields are present. -/
theorem aggLoop_default_skip (cal : CalEnv) (db : DbManager)
    (s1 s3 s24 sD sY sM sYr : ℚ × ℚ) (st : Record × Nat)
    (h : ∀ k ∈ ["windSpeed1hMax", "windSpeedDayMax", "windGustDayMax",
      "barometer1hDiff", "barometer3hDiff", "barometer24hDiff",
      "radiationDayMax", "windGust1hMax"],
      (alookup st.1 k).isNone = false) :
    defaultDataMap.foldl (aggLoopStep cal db s1 s3 s24 sD sY sM sYr) st =
      st := by
  apply aggLoop_fold_skip
  intro v hv
  fin_cases hv <;>
    first
      | exact Or.inl rfl
      | exact Or.inr (Or.inr (h _ (by decide)))

/-- With no record within the two lookback windows, the enrichment pass
leaves any field it did not otherwise derive unchanged. -/
theorem get_record_alookup (cal : CalEnv) (db : DbManager) (s : GtsState)
    (record : Record) (t : ℚ) (k : String)
    (hdt : alookup (cal.parent record) "dateTime" = some (PyVal.num t))
    (hago : ago1_lookup db t = Option.none)
    (hkf : ∀ v ∈ defaultDataMap, v.tim = "" ∨ v.agg = "" ∨
      v.obs ++ v.tim ++ pyCapitalize v.agg ≠ k)
    (h01 : "outTempDayMin" ≠ k) (h02 : "outTempDayMax" ≠ k)
    (h03 : "windchillDayMin" ≠ k) (h04 : "UVDayMax" ≠ k)
    (h05 : "lastRainDate" ≠ k) (h06 : "radiationYesterdayIntegral" ≠ k)
    (h07 : "GTS" ≠ k) (h08 : "GTSdate" ≠ k) (h09 : "outTempMonthAvg" ≠ k)
    (h10 : "yesterdayRain" ≠ k) (h11 : "monthRain" ≠ k)
    (h12 : "yearRain" ≠ k) (h13 : "rain3" ≠ k) (h14 : "rain10m" ≠ k)
    (h15 : "dayET" ≠ k) (h16 : "monthET" ≠ k) (h17 : "yearET" ≠ k) :
    ∀ s2 dd n, get_record cal defaultDataMap db s record = some (s2, dd, n) →
      alookup dd k = alookup (cal.parent record) k := by
  intro s2 dd n hEq
  simp only [get_record, hdt, Option.some.injEq, Prod.mk.injEq] at hEq
  obtain ⟨hs2, hdd, hn⟩ := hEq
  subst hdd
  rw [hago]
  have hb : ∀ (r : Record), step_baseline db Option.none t r = (r, 0) :=
    fun r => rfl
  rw [aggLoop_fold_alookup cal db _ _ _ _ _ _ _ defaultDataMap _ k hkf,
    step_et_alookup cal db _ _ _ _ k h15 h16 h17,
    step_rain_alookup cal db _ _ _ _ _ _ k h10 h11 h12 h13 h14,
    step_monthavg_alookup cal db _ _ k h09,
    step_gts_alookup cal db t s _ k h07 h08,
    step_radint_alookup db _ _ k h06,
    step_lastrain_alookup db t _ k h05,
    hb]
  dsimp only
  rw [step_dayminmax_alookup db _ t _ k h01 h02 h03 h04]

/-- C7: the nearest-hour-ago lookup takes the earliest record within the
last sixty to fifty-five minutes; if that window is empty it takes the
latest record within the last sixty-five to sixty minutes; if both are
empty the lookup yields nothing, the dependent fields stay unresolved and
their tokens are placeholders, with no error raised. -/
theorem nearest_hour_ago_windows (cal : CalEnv) (db : DbManager)
    (s : GtsState) (record : Record) (t : ℚ) :
    ((∃ x ∈ db.dateTimes, t - 3600 ≤ x ∧ x ≤ t - 3300) →
      ∃ m, ago1_lookup db t = some m ∧ t - 3600 ≤ m ∧ m ≤ t - 3300 ∧
        ∀ y ∈ db.dateTimes, t - 3600 ≤ y → y ≤ t - 3300 → m ≤ y) ∧
    ((¬∃ x ∈ db.dateTimes, t - 3600 ≤ x ∧ x ≤ t - 3300) →
      (∃ x ∈ db.dateTimes, t - 3900 ≤ x ∧ x ≤ t - 3600) →
      ∃ m, ago1_lookup db t = some m ∧ t - 3900 ≤ m ∧ m ≤ t - 3600 ∧
        ∀ y ∈ db.dateTimes, t - 3900 ≤ y → y ≤ t - 3600 → y ≤ m) ∧
    ((¬∃ x ∈ db.dateTimes, t - 3600 ≤ x ∧ x ≤ t - 3300) →
      (¬∃ x ∈ db.dateTimes, t - 3900 ≤ x ∧ x ≤ t - 3600) →
      ago1_lookup db t = Option.none ∧
      (alookup (cal.parent record) "dateTime" = some (PyVal.num t) →
        ∀ s2 dd n,
          get_record cal defaultDataMap db s record = some (s2, dd, n) →
          (alookup dd "outTemp1h" = alookup (cal.parent record) "outTemp1h" ∧
           alookup dd "barometer1h" =
             alookup (cal.parent record) "barometer1h" ∧
           alookup dd "pressure1h" =
             alookup (cal.parent record) "pressure1h" ∧
           alookup dd "windchill1hMin" =
             alookup (cal.parent record) "windchill1hMin" ∧
           alookup dd "radiation1hMax" =
             alookup (cal.parent record) "radiation1hMax") ∧
          (alookup (cal.parent record) "windchill1hMin" = Option.none →
           alookup (cal.parent record) "radiation1hMax" = Option.none →
           ∀ env : Env,
             fieldToken env dd
               ⟨"WCMN1H", "windchill1hMin", "", "", "\x7b:.1f\x7d"⟩ =
                 "--" ∧
             fieldToken env dd
               ⟨"SSMX1H", "radiation1hMax", "", "", "\x7b:.0f\x7d"⟩ =
                 "--"))) := by
  refine ⟨?_, ?_, ?_⟩
  · rintro ⟨x, hx, hx1, hx2⟩
    have hxf : x ∈ db.dateTimes.filter
        (fun y => t - 3600 ≤ y ∧ y ≤ t - 3300) := by
      simp only [List.mem_filter, decide_eq_true_eq]
      exact ⟨hx, hx1, hx2⟩
    cases hm : sqlMin (db.dateTimes.filter
        (fun y => t - 3600 ≤ y ∧ y ≤ t - 3300)) with
    | none =>
      rw [sqlMin_eq_none_iff] at hm
      rw [hm] at hxf
      simp at hxf
    | some m =>
      have hmem := sqlMin_mem _ _ hm
      have hle := sqlMin_le _ _ hm
      simp only [List.mem_filter, decide_eq_true_eq] at hmem
      refine ⟨m, (ago1_first_window db t m hm).1, hmem.2.1, hmem.2.2, ?_⟩
      intro y hy hy1 hy2
      exact hle y (by
        simp only [List.mem_filter, decide_eq_true_eq]
        exact ⟨hy, hy1, hy2⟩)
  · rintro hA ⟨x, hx, hx1, hx2⟩
    have hminN : sqlMin (db.dateTimes.filter
        (fun y => t - 3600 ≤ y ∧ y ≤ t - 3300)) = Option.none := by
      rw [sqlMin_eq_none_iff, List.filter_eq_nil_iff]
      intro a ha
      simp only [decide_eq_true_eq, not_and, not_le]
      intro h1
      by_contra h2
      exact hA ⟨a, ha, h1, not_lt.mp h2⟩
    have hxf : x ∈ db.dateTimes.filter
        (fun y => t - 3900 ≤ y ∧ y ≤ t - 3600) := by
      simp only [List.mem_filter, decide_eq_true_eq]
      exact ⟨hx, hx1, hx2⟩
    cases hm : sqlMax (db.dateTimes.filter
        (fun y => t - 3900 ≤ y ∧ y ≤ t - 3600)) with
    | none =>
      rw [sqlMax_eq_none_iff] at hm
      rw [hm] at hxf
      simp at hxf
    | some m =>
      have hmem := sqlMax_mem _ _ hm
      have hge := sqlMax_ge _ _ hm
      simp only [List.mem_filter, decide_eq_true_eq] at hmem
      refine ⟨m, ?_, hmem.2.1, hmem.2.2, ?_⟩
      · rw [(ago1_fallback db t hminN).1, hm]
      · intro y hy hy1 hy2
        exact hge y (by
          simp only [List.mem_filter, decide_eq_true_eq]
          exact ⟨hy, hy1, hy2⟩)
  · intro hA hB
    have hminN : sqlMin (db.dateTimes.filter
        (fun y => t - 3600 ≤ y ∧ y ≤ t - 3300)) = Option.none := by
      rw [sqlMin_eq_none_iff, List.filter_eq_nil_iff]
      intro a ha
      simp only [decide_eq_true_eq, not_and, not_le]
      intro h1
      by_contra h2
      exact hA ⟨a, ha, h1, not_lt.mp h2⟩
    have hmaxN : sqlMax (db.dateTimes.filter
        (fun y => t - 3900 ≤ y ∧ y ≤ t - 3600)) = Option.none := by
      rw [sqlMax_eq_none_iff, List.filter_eq_nil_iff]
      intro a ha
      simp only [decide_eq_true_eq, not_and, not_le]
      intro h1
      by_contra h2
      exact hB ⟨a, ha, h1, not_lt.mp h2⟩
    have hagoN : ago1_lookup db t = Option.none := by
      rw [(ago1_fallback db t hminN).1, hmaxN]
    refine ⟨hagoN, ?_⟩
    intro hdt s2 dd n hEq
    have e1 := get_record_alookup cal db s record t "outTemp1h" hdt hagoN
      (by decide) (by decide) (by decide) (by decide) (by decide)
      (by decide) (by decide) (by decide) (by decide) (by decide)
      (by decide) (by decide) (by decide) (by decide) (by decide)
      (by decide) (by decide) (by decide) s2 dd n hEq
    have e2 := get_record_alookup cal db s record t "barometer1h" hdt hagoN
      (by decide) (by decide) (by decide) (by decide) (by decide)
      (by decide) (by decide) (by decide) (by decide) (by decide)
      (by decide) (by decide) (by decide) (by decide) (by decide)
      (by decide) (by decide) (by decide) s2 dd n hEq
    have e3 := get_record_alookup cal db s record t "pressure1h" hdt hagoN
      (by decide) (by decide) (by decide) (by decide) (by decide)
      (by decide) (by decide) (by decide) (by decide) (by decide)
      (by decide) (by decide) (by decide) (by decide) (by decide)
      (by decide) (by decide) (by decide) s2 dd n hEq
    have e4 := get_record_alookup cal db s record t "windchill1hMin" hdt
      hagoN (by decide) (by decide) (by decide) (by decide) (by decide)
      (by decide) (by decide) (by decide) (by decide) (by decide)
      (by decide) (by decide) (by decide) (by decide) (by decide)
      (by decide) (by decide) (by decide) s2 dd n hEq
    have e5 := get_record_alookup cal db s record t "radiation1hMax" hdt
      hagoN (by decide) (by decide) (by decide) (by decide) (by decide)
      (by decide) (by decide) (by decide) (by decide) (by decide)
      (by decide) (by decide) (by decide) (by decide) (by decide)
      (by decide) (by decide) (by decide) s2 dd n hEq
    refine ⟨⟨e1, e2, e3, e4, e5⟩, ?_⟩
    intro hwc hrad env
    constructor
    · apply fieldToken_of_lookup_none
      show alookup dd "windchill1hMin" = Option.none
      rw [e4, hwc]
    · apply fieldToken_of_lookup_none
      show alookup dd "radiation1hMax" = Option.none
      rw [e5, hrad]

/-- On a record with every guarded field present, the enrichment pass
issues exactly six storage queries and overwrites exactly the radiation
integral and the month-average temperature. -/
theorem get_record_allpresent (cal : CalEnv) (db : DbManager)
    (s : GtsState) (record : Record) (t ats : ℚ) (rv ru : PyVal)
    (vt : PyVal × String × String) (pv : PyVal)
    (hdt : alookup (cal.parent record) "dateTime" = some (PyVal.num t))
    (hpres : ∀ k ∈ presenceKeys,
      (alookup (cal.parent record) k).isNone = false)
    (hago : sqlMin (db.dateTimes.filter
      (fun y => t - 3600 ≤ y ∧ y ≤ t - 3300)) = some ats)
    (hrad : db.radInt (cal.yesterdaySpan t).1 (cal.yesterdaySpan t).2 =
      some (rv, ru, ru))
    (hagg : db.agg "outTemp" (cal.monthSpan t) "avg" = some vt)
    (hconv : cal.convertStd (rinsert (cal.parent record)
      "radiationYesterdayIntegral" rv) vt = some pv) :
    get_record cal defaultDataMap db s record =
      some (s, rinsert (rinsert (cal.parent record)
        "radiationYesterdayIntegral" rv) "outTempMonthAvg" pv, 6) ∧
    (∀ k, "radiationYesterdayIntegral" ≠ k → "outTempMonthAvg" ≠ k →
      alookup (rinsert (rinsert (cal.parent record)
        "radiationYesterdayIntegral" rv) "outTempMonthAvg" pv) k =
        alookup (cal.parent record) k) := by
  have q : ∀ k ∈ presenceKeys,
      (alookup (rinsert (rinsert (cal.parent record)
        "radiationYesterdayIntegral" rv) "outTempMonthAvg" pv) k).isNone =
        false := by
    intro k hk
    fin_cases hk <;>
      (rw [alookup_rinsert, alookup_rinsert, if_neg (by decide),
         if_neg (by decide)]
       exact hpres _ (by decide))
  have pg : (alookup (rinsert (cal.parent record)
      "radiationYesterdayIntegral" rv) "GTS").isNone = false := by
    rw [alookup_rinsert, if_neg (by decide)]
    exact hpres _ (by decide)
  constructor
  · simp only [get_record, hdt]
    rw [(ago1_first_window db t ats hago).1,
      (ago1_first_window db t ats hago).2,
      step_dayminmax_skip db (cal.startOfDay t) t (cal.parent record)
        (hpres _ (by decide))]
    dsimp only
    rw [step_baseline_skip db ats t (cal.parent record)
      (hpres _ (by decide)) (hpres _ (by decide)) (hpres _ (by decide))
      (hpres _ (by decide)) (hpres _ (by decide))]
    dsimp only
    rw [step_lastrain_skip db t (cal.parent record) (hpres _ (by decide))]
    dsimp only
    rw [step_radint_write db (cal.yesterdaySpan t) (cal.parent record)
      rv ru hrad]
    dsimp only
    rw [step_gts_skip cal db t s _ pg]
    dsimp only
    rw [step_monthavg_write cal db (cal.monthSpan t) _ vt pv hagg hconv]
    dsimp only
    rw [step_rain_skip cal db _ _ _ _ _ _ (q _ (by decide))
      (q _ (by decide)) (q _ (by decide)) (q _ (by decide))
      (q _ (by decide))]
    dsimp only
    rw [step_et_skip cal db _ _ _ _ (q _ (by decide)) (q _ (by decide))
      (q _ (by decide))]
    dsimp only
    rw [aggLoop_default_skip cal db _ _ _ _ _ _ _ _
      (fun k hk => q k (by fin_cases hk <;> decide))]
    rfl
  · intro k hk1 hk2
    rw [alookup_rinsert, alookup_rinsert, if_neg hk2, if_neg hk1]

/-- C6 counterexample: on a base record in which every derived field is
already present, the enrichment pass still issues six storage queries
(count 6, not 0) and overwrites the caller-supplied month-average
temperature (1 becomes the freshly computed 7), contradicting both the
zero-query and the values-unchanged halves of the claim. -/
theorem enrichment_noop_cex :
    get_record c6Cal defaultDataMap c6Db
        ⟨some 0, Option.none, Option.none⟩ c6Rec =
      some (⟨some 0, Option.none, Option.none⟩,
        rinsert (rinsert c6Rec "radiationYesterdayIntegral" (PyVal.num 8))
          "outTempMonthAvg" (PyVal.num 7), 6) ∧
    (6 : Nat) ≠ 0 ∧
    alookup (rinsert (rinsert c6Rec "radiationYesterdayIntegral"
        (PyVal.num 8)) "outTempMonthAvg" (PyVal.num 7))
      "outTempMonthAvg" = some (PyVal.num 7) ∧
    alookup c6Rec "outTempMonthAvg" = some (PyVal.num 1) ∧
    PyVal.num 7 ≠ PyVal.num 1 := by
  refine ⟨?_, by decide, by decide, by decide, by decide⟩
  exact (get_record_allpresent c6Cal c6Db
    ⟨some 0, Option.none, Option.none⟩ c6Rec 100000 96400
    (PyVal.num 8) (PyVal.num 16)
    (PyVal.num 7, "degree_C", "group_temperature") (PyVal.num 7)
    (by decide) (by decide) (by norm_num [c6Db, sqlMin]) rfl rfl rfl).1

/-- C6 (amended): on a base record in which every guarded derived field
is already present, the enrichment pass still issues exactly six storage
queries (the hour-ago timestamp lookup, the two baseline row queries,
the last-rain query, the radiation integral and the month average) and
overwrites the radiation integral and the month-average temperature with
freshly computed values; every other field keeps its caller-supplied
value. -/
theorem enrichment_always_queries (cal : CalEnv) (db : DbManager)
    (s : GtsState) (record : Record) (t ats : ℚ) (rv ru : PyVal)
    (vt : PyVal × String × String) (pv : PyVal)
    (hdt : alookup (cal.parent record) "dateTime" = some (PyVal.num t))
    (hpres : ∀ k ∈ presenceKeys,
      (alookup (cal.parent record) k).isNone = false)
    (hago : sqlMin (db.dateTimes.filter
      (fun y => t - 3600 ≤ y ∧ y ≤ t - 3300)) = some ats)
    (hrad : db.radInt (cal.yesterdaySpan t).1 (cal.yesterdaySpan t).2 =
      some (rv, ru, ru))
    (hagg : db.agg "outTemp" (cal.monthSpan t) "avg" = some vt)
    (hconv : cal.convertStd (rinsert (cal.parent record)
      "radiationYesterdayIntegral" rv) vt = some pv) :
    get_record cal defaultDataMap db s record =
      some (s, rinsert (rinsert (cal.parent record)
        "radiationYesterdayIntegral" rv) "outTempMonthAvg" pv, 6) ∧
    (∀ k, "radiationYesterdayIntegral" ≠ k → "outTempMonthAvg" ≠ k →
      alookup (rinsert (rinsert (cal.parent record)
        "radiationYesterdayIntegral" rv) "outTempMonthAvg" pv) k =
        alookup (cal.parent record) k) :=
  get_record_allpresent cal db s record t ats rv ru vt pv
    hdt hpres hago hrad hagg hconv

/-- Witness for C6 (amended) at the concrete all-present instance. -/
theorem enrichment_always_queries_witness :
    get_record c6Cal defaultDataMap c6Db
        ⟨some 0, Option.none, Option.none⟩ c6Rec =
      some (⟨some 0, Option.none, Option.none⟩,
        rinsert (rinsert c6Rec "radiationYesterdayIntegral" (PyVal.num 8))
          "outTempMonthAvg" (PyVal.num 7), 6) ∧
    alookup (rinsert (rinsert c6Rec "radiationYesterdayIntegral"
        (PyVal.num 8)) "outTempMonthAvg" (PyVal.num 7))
      "windSpeed1hMax" = alookup c6Rec "windSpeed1hMax" := by
  have h := enrichment_always_queries c6Cal c6Db
    ⟨some 0, Option.none, Option.none⟩ c6Rec 100000 96400
    (PyVal.num 8) (PyVal.num 16)
    (PyVal.num 7, "degree_C", "group_temperature") (PyVal.num 7)
    (by decide) (by decide) (by norm_num [c6Db, sqlMin]) rfl rfl rfl
  exact ⟨h.1, h.2 _ (by decide) (by decide)⟩

/-- Witness for C7: with the single archive row at 96400, the lookup at
100000 hits the first window and returns 96400; at 90000 both windows
are empty and the lookup yields nothing. -/
theorem nearest_hour_ago_windows_witness :
    (∃ m, ago1_lookup c6Db 100000 = some m ∧ (100000 : ℚ) - 3600 ≤ m ∧
      m ≤ (100000 : ℚ) - 3300 ∧
      ∀ y ∈ c6Db.dateTimes, (100000 : ℚ) - 3600 ≤ y →
        y ≤ (100000 : ℚ) - 3300 → m ≤ y) ∧
    ago1_lookup c6Db 90000 = Option.none := by
  constructor
  · exact (nearest_hour_ago_windows c6Cal c6Db
      ⟨some 0, Option.none, Option.none⟩ c6Rec 100000).1
      ⟨96400, by norm_num [c6Db], by norm_num, by norm_num⟩
  · exact ((nearest_hour_ago_windows c6Cal c6Db
      ⟨some 0, Option.none, Option.none⟩ c6Rec 90000).2.2
      (by norm_num [c6Db]) (by norm_num [c6Db])).1

/-- Witness for C10: with no temperature data at all the sum stays unset
and GRASUM is the placeholder; with a single day of mean minus five the
sum becomes zero and GRASUM is a formatted value. -/
theorem gts_unset_until_data_witness :
    ((calc_gts (gtsCal.startOfDay 200000) (gtsCal.yearStart 200000)
        c6Db.gtsAvg ⟨Option.none, Option.none, Option.none⟩).1.gts_value =
      Option.none ∧
     fieldToken testEnv (step_gts gtsCal c6Db 200000
        ⟨Option.none, Option.none, Option.none⟩
        [("dateTime", PyVal.num 200000)]).2.1
      ⟨"GRASUM", "GTS", "", "", "\x7b:.1f\x7d"⟩ = "--") ∧
    ((calc_gts (gtsCal.startOfDay 200000) (gtsCal.yearStart 200000)
        gtsDbm.gtsAvg ⟨Option.none, Option.none, Option.none⟩).1.gts_value =
      some 0 ∧
     fieldToken testEnv (step_gts gtsCal gtsDbm 200000
        ⟨Option.none, Option.none, Option.none⟩
        [("dateTime", PyVal.num 200000)]).2.1
      ⟨"GRASUM", "GTS", "", "", "\x7b:.1f\x7d"⟩ = "val0") := by
  have h1 := (gts_unset_until_data testEnv gtsCal c6Db
    ⟨Option.none, Option.none, Option.none⟩
    [("dateTime", PyVal.num 200000)] 200000 0 (-5) 0 (PyVal.num 0)
    "degree_C_day" "group_degree_day" "val0").1 rfl rfl (fun _ => rfl)
    (by decide)
  have h2 := (gts_unset_until_data testEnv gtsCal gtsDbm
    ⟨Option.none, Option.none, Option.none⟩
    [("dateTime", PyVal.num 200000)] 200000 0 (-5) 0 (PyVal.num 0)
    "degree_C_day" "group_degree_day" "val0").2 rfl
    (by norm_num [gtsDbm]) (by norm_num)
    (fun x hx => by simp [gtsDbm, hx])
    (by norm_num [gtsCal]) (by norm_num [gtsCal]) (by norm_num [gtsCal])
    (by decide) rfl (by decide) (by decide) (by decide) (by decide)
    (by decide) (by decide)
  exact ⟨⟨h1.1, h1.2.2⟩, ⟨h2.1, h2.2.2.1⟩⟩

end WnsVerify
